import Mathlib

/-!
KEITHSDR `SDR_RA8875/UserInput.h`: the touch event broker

A shallow embedding of `Touch`, `Gesture_Handler`, `Button_Handler`,
`Set_Spectrum_Scale` and `Set_Spectrum_RefLvl`.

* The file-scope `touch_evt`, the function-static `previous_touch` and the radio
  globals the handlers assign are fields of `State`; every function maps a
  `State` to a new `State` together with the list of calls it made, in order.
* What the touch controller driver (`tft`) and the `Metro` timer answer on one
  invocation of `Touch` is the `Poll` argument.
* `uint16_t`/`uint8_t` cells hold a `Nat`, `int16_t`/`int` values an `Int`;
  conversions to `int16_t` are written out as `toInt16`.
* Functions defined outside the file (`selectMode`, `selectStep`, `RampVolume`,
  the `tft` drawing calls, ...) appear in the call list only; whatever they do
  to the radio globals is outside this development. They cannot reach
  `previous_touch`, which is local to `Touch`.
* `Serial` output is not modelled.
-/

namespace UserInput

/-! ## Machine integers -/

/-- Conversion of an `int` value to `int16_t`: reduction modulo `2^16` into
`[-32768, 32767]`. -/
def toInt16 (v : Int) : Int := (v + 32768) % 65536 - 32768

/-- Conversion of an `int` value to `uint8_t`. -/
def toUInt8 (v : Nat) : Nat := v % 256

/-- The macro `BUTTON_TOUCH`: distance in pixels that separates a button from a gesture. -/
def BUTTON_TOUCH : Nat := 40

/-! ## Data model -/

/-- A `uint16_t [MAXTOUCHLIMIT][2]` array, on the two contact slots the code
reads: `x0 = [0][0]`, `y0 = [0][1]`, `x1 = [1][0]`, `y1 = [1][1]`. -/
structure Coordinates where
  x0 : Nat
  y0 : Nat
  x1 : Nat
  y1 : Nat
  deriving DecidableEq, Repr

/-- The `int16_t distance[MAXTOUCHLIMIT][2]` array, on the same two slots. -/
structure Distance where
  x0 : Int
  y0 : Int
  x1 : Int
  y1 : Int
  deriving DecidableEq, Repr

/-- The record `struct Touch_Control`. -/
structure Touch_Control where
  start_coordinates : Coordinates
  last_coordinates : Coordinates
  distance : Distance
  deriving DecidableEq, Repr

/-- The integer fields of one `Sp_Parms_Def[]` entry that this file assigns.
The floating-point field `spect_wf_scale` is not represented. -/
structure Spectrum_Parms where
  spect_floor : Int
  spect_wf_colortemp : Int
  spect_x : Int
  spect_y : Int
  spect_width : Int
  spect_height : Int
  deriving DecidableEq, Repr

/-- The externally declared layout globals read by `Button_Handler`, and the
`spect_wf_style` column of the external table `Sp_Parms_Custom[]`. -/
structure Layout where
  L_frame_left : Int
  L_frame_right : Int
  R_frame_left : Int
  R_frame_right : Int
  Top_frame : Int
  B_height : Int
  Sp_Parms_Custom_spect_wf_style : Int → Int

/-- The persistent variables: `touch_evt`, `previous_touch`, and the radio
globals assigned by the handlers. -/
structure State where
  touch_evt : Touch_Control
  previous_touch : Nat
  B_num : Int
  bndx : Int
  fndx : Int
  mndx : Int
  Freq : Int
  spectrum_preset : Int
  spectrum_wf_style : Int
  Sp_Parms_Def : Int → Spectrum_Parms

/-- What the collaborators answer during one invocation of `Touch`. -/
structure Poll where
  /-- Result of `tft.touched()`. -/
  touched : Bool
  /-- Result of `tft.getTouches()` after the first `tft.updateTS()`. -/
  getTouches : Nat
  /-- Effect of `tft.getTScoordinates(a)` on the array `a` it is handed, after the
  second `tft.updateTS()` of the invocation. -/
  getTScoordinates : Coordinates → Coordinates
  /-- Whether `gesture_timer.check() == 1`. -/
  timer_expired : Bool

/-- A call made by the code, as written at the call site. -/
inductive Call where
  | Button_Handler (x y : Nat)
  | Gesture_Handler (gesture : Nat)
  | Set_Spectrum_RefLvl (zoom_dir : Int)
  | Set_Spectrum_Scale (zoom_dir : Int)
  | gesture_timer_reset
  | gesture_timer_check
  | selectMode
  | selectBandwidth (bndx : Int)
  | selectStep (fndx : Int)
  | displayAttn
  | displayPreamp
  | selectAgc
  | delay (ms : Nat)
  | fillRect (x y w h : Int)
  | drawSpectrumFrame (preset : Int)
  | Spectrum_Parm_Generator (preset : Int)
  | displayStep
  | RampVolume (vol : Nat) (rampType : Nat)
  | selectFrequency
  deriving DecidableEq, Repr

/-- The zero-initialised statics at program start, around given radio globals. -/
def State.init (radio : State) : State :=
  { radio with
    touch_evt := ⟨⟨0, 0, 0, 0⟩, ⟨0, 0, 0, 0⟩, ⟨0, 0, 0, 0⟩⟩
    previous_touch := 0 }

/-! ## Spectrum callbacks -/

/-- The function `Set_Spectrum_Scale`: it only updates the floating-point field
`Sp_Parms_Def[spectrum_preset].spect_wf_scale`, which `State` does not carry. -/
def Set_Spectrum_Scale (_zoom_dir : Int) (s : State) : State × List Call :=
  (s, [])

/-- The function `Set_Spectrum_RefLvl`. -/
def Set_Spectrum_RefLvl (zoom_dir : Int) (s : State) : State × List Call :=
  let p := s.Sp_Parms_Def s.spectrum_preset
  let f1 := if zoom_dir = 1 then p.spect_floor - 10 else p.spect_floor + 10
  let f2 := if f1 < -400 then -400 else f1
  let f3 := if f2 > 400 then 400 else f2
  ({ s with Sp_Parms_Def :=
      Function.update s.Sp_Parms_Def s.spectrum_preset { p with spect_floor := f3 } }, [])

/-! ## Gesture handler -/

/-- The value `sqrt(pow(dx, 2) + pow(dy, 2))` assigned to an `int16_t`. For `int`
operands of 16 bits the squares and their sum are exact in `double`, and the
correctly rounded root of an integer below `2^53` has the integer part of the
exact root; the conversion truncates. A root above 32767 does not fit the
target and is reduced like the other conversions; with coordinates below 4096
the root is at most 5791. -/
def dist16 (dx dy : Int) : Int :=
  toInt16 (Nat.sqrt (dx * dx + dy * dy).toNat)

/-- Body of `case 1` of `Gesture_Handler`: a swipe or drag. -/
def swipePath (s : State) : State × List Call :=
  let T1_X := s.touch_evt.distance.x0
  let T1_Y := s.touch_evt.distance.y0
  if T1_Y.natAbs > T1_X.natAbs then
    if T1_Y > 0 then
      let r := Set_Spectrum_RefLvl (-1) s
      (r.1, Call.Set_Spectrum_RefLvl (-1) :: r.2)
    else
      let r := Set_Spectrum_RefLvl 1 s
      (r.1, Call.Set_Spectrum_RefLvl 1 :: r.2)
  else
    (s, [])

/-- Body of `case 2` of `Gesture_Handler`: a pinch. -/
def pinchPath (s : State) : State × List Call :=
  let t1_x_s := toInt16 s.touch_evt.start_coordinates.x0
  let t1_y_s := toInt16 s.touch_evt.start_coordinates.y0
  let t2_x_s := toInt16 s.touch_evt.start_coordinates.x1
  let t2_y_s := toInt16 s.touch_evt.start_coordinates.y1
  let t1_x_e := toInt16 s.touch_evt.last_coordinates.x0
  let t1_y_e := toInt16 s.touch_evt.last_coordinates.y0
  let t2_x_e := toInt16 s.touch_evt.last_coordinates.x1
  let t2_y_e := toInt16 s.touch_evt.last_coordinates.y1
  let dist_start := dist16 (t2_x_s - t1_x_s) (t2_y_s - t1_y_s)
  let dist_end := dist16 (t2_x_e - t1_x_e) (t2_y_e - t1_y_e)
  if dist_end < dist_start then
    let r := Set_Spectrum_Scale (-1) s
    (r.1, Call.Set_Spectrum_Scale (-1) :: r.2)
  else
    let r := Set_Spectrum_Scale 1 s
    (r.1, Call.Set_Spectrum_Scale 1 :: r.2)

/-- The function `Gesture_Handler(uint8_t gesture)`: `case 0` and `default` only
log and return. -/
def Gesture_Handler (gesture : Nat) (s : State) : State × List Call :=
  if gesture = 1 then swipePath s
  else if gesture = 2 then pinchPath s
  else (s, [])

/-! ## Button handler -/

/-- The hit test `(x > left && x < right) && (y > Top_frame+(B_height*(B_num-1)) &&
y < Top_frame+(B_height*(B_num)))` shared by the twelve zones. -/
def inZone (L : Layout) (left right : Int) (B_num : Int) (x : Int) (y : Nat) : Bool :=
  decide ((x > left ∧ x < right) ∧
    ((y : Int) > L.Top_frame + L.B_height * (B_num - 1) ∧
      (y : Int) < L.Top_frame + L.B_height * B_num))

/-- The band-change sequence shared by the two band buttons, after `Freq` has
been adjusted. -/
def bandChange (s : State) : State × List Call :=
  let s1 := { s with fndx := 4 }
  let s2 := { s1 with mndx := if s1.Freq < 10000000 then 1 else 2 }
  (s2, [Call.selectStep 4, Call.displayStep, Call.RampVolume 0 1, Call.selectFrequency,
        Call.RampVolume 1 1, Call.selectMode])

/-- Body of left-stack slot 1 (mode). -/
def leftSlot1 (s : State) : State × List Call :=
  (s, [Call.selectMode])

/-- Body of left-stack slot 2 (bandwidth up). -/
def leftSlot2 (s : State) : State × List Call :=
  let b := s.bndx + 1
  let b := if b > 8 then 8 else b
  ({ s with bndx := b }, [Call.selectBandwidth b])

/-- Body of left-stack slot 3 (bandwidth down). -/
def leftSlot3 (s : State) : State × List Call :=
  let b := s.bndx - 1
  let b := if b < 0 then 0 else b
  ({ s with bndx := b }, [Call.selectBandwidth b])

/-- Body of left-stack slot 4 (step up). -/
def leftSlot4 (s : State) : State × List Call :=
  let f := s.fndx + 1
  let f := if f > 5 then 5 else f
  ({ s with fndx := f }, [Call.selectStep f])

/-- Body of left-stack slot 5 (step down). -/
def leftSlot5 (s : State) : State × List Call :=
  let f := s.fndx - 1
  let f := if f < 0 then 0 else f
  ({ s with fndx := f }, [Call.selectStep f])

/-- Body of left-stack slot 6 (settings: waterfall colour temperature). -/
def leftSlot6 (s : State) : State × List Call :=
  let p := s.Sp_Parms_Def s.spectrum_preset
  let c := p.spect_wf_colortemp + 10
  let c := if c > 10000 then 1 else c
  ({ s with Sp_Parms_Def :=
      Function.update s.Sp_Parms_Def s.spectrum_preset { p with spect_wf_colortemp := c } }, [])

/-- Body of right-stack slot 1 (attenuator). -/
def rightSlot1 (s : State) : State × List Call :=
  (s, [Call.displayAttn])

/-- Body of right-stack slot 2 (preamp). -/
def rightSlot2 (s : State) : State × List Call :=
  (s, [Call.displayPreamp])

/-- Body of right-stack slot 3 (AGC). -/
def rightSlot3 (s : State) : State × List Call :=
  (s, [Call.selectAgc, Call.delay 300])

/-- Body of right-stack slot 4 (display: next spectrum preset); `uint8_t s =
spectrum_preset` indexes the rectangle that is blanked. -/
def rightSlot4 (L : Layout) (s : State) : State × List Call :=
  let old := s.Sp_Parms_Def (s.spectrum_preset % 256)
  let n := s.spectrum_preset + 1
  let n := if n > 8 then 0 else n
  ({ s with
      spectrum_preset := n
      spectrum_wf_style := L.Sp_Parms_Custom_spect_wf_style n },
    [Call.fillRect old.spect_x old.spect_y old.spect_width old.spect_height,
     Call.drawSpectrumFrame n, Call.Spectrum_Parm_Generator n])

/-- Body of right-stack slot 5 (band up). -/
def rightSlot5 (s : State) : State × List Call :=
  let fr := s.Freq + 1000000
  let fr := if fr > 32000000 then 1000000 else fr
  bandChange { s with Freq := fr }

/-- Body of right-stack slot 6 (band down). -/
def rightSlot6 (s : State) : State × List Call :=
  let fr := s.Freq - 1000000
  let fr := if fr < 1800000 then 1800000 else fr
  bandChange { s with Freq := fr }

/-- The function `Button_Handler(int16_t x, uint16_t y)`: `B_num` is assigned
before each hit test and the first zone hit runs its body and returns. -/
def Button_Handler (L : Layout) (x : Int) (y : Nat) (s : State) : State × List Call :=
  if inZone L L.L_frame_left L.L_frame_right 1 x y then leftSlot1 { s with B_num := 1 }
  else if inZone L L.L_frame_left L.L_frame_right 2 x y then leftSlot2 { s with B_num := 2 }
  else if inZone L L.L_frame_left L.L_frame_right 3 x y then leftSlot3 { s with B_num := 3 }
  else if inZone L L.L_frame_left L.L_frame_right 4 x y then leftSlot4 { s with B_num := 4 }
  else if inZone L L.L_frame_left L.L_frame_right 5 x y then leftSlot5 { s with B_num := 5 }
  else if inZone L L.L_frame_left L.L_frame_right 6 x y then leftSlot6 { s with B_num := 6 }
  else if inZone L L.R_frame_left L.R_frame_right 1 x y then rightSlot1 { s with B_num := 1 }
  else if inZone L L.R_frame_left L.R_frame_right 2 x y then rightSlot2 { s with B_num := 2 }
  else if inZone L L.R_frame_left L.R_frame_right 3 x y then rightSlot3 { s with B_num := 3 }
  else if inZone L L.R_frame_left L.R_frame_right 4 x y then rightSlot4 L { s with B_num := 4 }
  else if inZone L L.R_frame_left L.R_frame_right 5 x y then rightSlot5 { s with B_num := 5 }
  else if inZone L L.R_frame_left L.R_frame_right 6 x y then rightSlot6 { s with B_num := 6 }
  else ({ s with B_num := 6 }, [])

/-! ## The broker -/

/-- The four `distance` entries STATE 4 stores: contact 0 always, contact 1 only
when `previous_touch` is not 1. Each difference of two `uint16_t` cells is an
`int` that the assignment converts to `int16_t`. -/
def liftDistance (previous_touch : Nat) (start last : Coordinates) : Distance :=
  ⟨toInt16 ((last.x0 : Int) - start.x0),
   toInt16 ((last.y0 : Int) - start.y0),
   if previous_touch = 1 then 0 else toInt16 ((last.x1 : Int) - start.x1),
   if previous_touch = 1 then 0 else toInt16 ((last.y1 : Int) - start.y1)⟩

/-- The dispatch of STATE 4, on the state that holds the stored distances. -/
def liftDispatch (L : Layout) (s : State) : State × List Call :=
  if s.previous_touch = 1 ∧
      (s.touch_evt.distance.x0.natAbs < BUTTON_TOUCH ∧
        s.touch_evt.distance.y0.natAbs < BUTTON_TOUCH) then
    let b := Button_Handler L (toInt16 s.touch_evt.start_coordinates.x0)
      s.touch_evt.start_coordinates.y0 s
    (b.1, Call.Button_Handler s.touch_evt.start_coordinates.x0
      s.touch_evt.start_coordinates.y0 :: b.2)
  else
    let g := Gesture_Handler s.previous_touch s
    (g.1, Call.Gesture_Handler s.previous_touch :: g.2)

/-- The state on which STATE 4 dispatches: `last_coordinates` refreshed and the
distances stored. -/
def liftState (s : State) (inp : Poll) : State :=
  { s with
    touch_evt :=
      ⟨s.touch_evt.start_coordinates,
       inp.getTScoordinates s.touch_evt.last_coordinates,
       liftDistance s.previous_touch s.touch_evt.start_coordinates
         (inp.getTScoordinates s.touch_evt.last_coordinates)⟩ }

/-- STATE 4 of `Touch`: the finger was lifted (`!current_touches && previous_touch`). -/
def touchLift (L : Layout) (s : State) (inp : Poll) : State × List Call :=
  let r := liftDispatch L (liftState s inp)
  ({ r.1 with
      previous_touch := 0
      touch_evt := { r.1.touch_evt with distance := ⟨0, 0, 0, 0⟩ } }, r.2)

/-- The function `Touch`, one invocation. -/
def Touch (L : Layout) (s : State) (inp : Poll) : State × List Call :=
  if inp.touched then
    let current_touches := toUInt8 inp.getTouches
    -- STATE 1
    if current_touches = 0 ∧ s.previous_touch = 0 then
      (s, [])
    -- STATE 2
    else if current_touches ≠ 0 ∧ s.previous_touch = 0 then
      ({ s with
          previous_touch := current_touches
          touch_evt :=
            { s.touch_evt with
              start_coordinates := inp.getTScoordinates s.touch_evt.start_coordinates
              last_coordinates := inp.getTScoordinates s.touch_evt.last_coordinates } },
        [Call.gesture_timer_reset])
    -- STATE 3
    else if current_touches ≠ 0 ∧ s.previous_touch ≠ 0 then
      if inp.timer_expired then
        ({ s with previous_touch := 0 }, [Call.gesture_timer_check])
      else
        ({ s with
            touch_evt :=
              { s.touch_evt with
                last_coordinates := inp.getTScoordinates s.touch_evt.last_coordinates } },
          [Call.gesture_timer_check])
    -- STATE 4
    else if current_touches = 0 ∧ s.previous_touch ≠ 0 then
      touchLift L s inp
    else
      (s, [])
  else
    (s, [])

/-- Successive invocations of `Touch`, one per element of `polls`, with the
calls of all invocations in order. -/
def run (L : Layout) (s : State) : List Poll → State × List Call
  | [] => (s, [])
  | p :: ps =>
    let r := Touch L s p
    let q := run L r.1 ps
    (q.1, r.2 ++ q.2)

/-! ## Vocabulary of the statements -/

/-- A call to one of the two handlers `Touch` dispatches to. -/
def Call.isHandler : Call → Bool
  | Call.Button_Handler _ _ => true
  | Call.Gesture_Handler _ => true
  | _ => false

/-- A call to one of the two spectrum callbacks of `Gesture_Handler`. -/
def Call.isCallback : Call → Bool
  | Call.Set_Spectrum_RefLvl _ => true
  | Call.Set_Spectrum_Scale _ => true
  | _ => false

/-- Touch-Down poll: the controller reports a touch event and `C > 0` contacts. -/
def Poll.isDown (p : Poll) : Prop :=
  p.touched = true ∧ toUInt8 p.getTouches ≠ 0

/-- Touch-Held poll on which the gesture timer has not expired. -/
def Poll.isHeld (p : Poll) : Prop :=
  p.touched = true ∧ toUInt8 p.getTouches ≠ 0 ∧ p.timer_expired = false

/-- Touch-Held poll on which the gesture timer has expired. -/
def Poll.isExpired (p : Poll) : Prop :=
  p.touched = true ∧ toUInt8 p.getTouches ≠ 0 ∧ p.timer_expired = true

/-- Poll that samples zero contacts. -/
def Poll.isLift (p : Poll) : Prop :=
  p.touched = true ∧ toUInt8 p.getTouches = 0

instance (p : Poll) : Decidable p.isDown := by
  unfold Poll.isDown; infer_instance

instance (p : Poll) : Decidable p.isHeld := by
  unfold Poll.isHeld; infer_instance

instance (p : Poll) : Decidable p.isExpired := by
  unfold Poll.isExpired; infer_instance

instance (p : Poll) : Decidable p.isLift := by
  unfold Poll.isLift; infer_instance

/-- All four cells lie within the panel range (below 4096). -/
def Coordinates.inPanel (c : Coordinates) : Prop :=
  c.x0 < 4096 ∧ c.y0 < 4096 ∧ c.x1 < 4096 ∧ c.y1 < 4096

instance (c : Coordinates) : Decidable c.inPanel := by
  unfold Coordinates.inPanel; infer_instance

/-- Exact squared Euclidean distance between contact 0 and contact 1. -/
def sqDistance (c : Coordinates) : Nat :=
  ((c.x1 : Int) - c.x0).natAbs ^ 2 + ((c.y1 : Int) - c.y0).natAbs ^ 2

/-- Integer-truncated Euclidean distance between contact 0 and contact 1. -/
def truncDistance (c : Coordinates) : Nat :=
  Nat.sqrt (sqDistance c)

/-- A zone of the button dispatcher: the edges of its stack and its slot number. -/
structure Zone where
  left : Int
  right : Int
  slot : Int
  deriving DecidableEq, Repr

/-- The point `(x,y)` lies in the open rectangle of the zone: strictly between
the stack edges and strictly between `Top_frame + B_height*(slot-1)` and
`Top_frame + B_height*slot`. -/
def Zone.contains (L : Layout) (z : Zone) (x : Int) (y : Nat) : Prop :=
  (z.left < x ∧ x < z.right) ∧
    (L.Top_frame + L.B_height * (z.slot - 1) < (y : Int) ∧
      (y : Int) < L.Top_frame + L.B_height * z.slot)

instance (L : Layout) (z : Zone) (x : Int) (y : Nat) : Decidable (z.contains L x y) := by
  unfold Zone.contains; infer_instance

/-- The twelve zones with their actions, in the order of the dispatcher:
left-stack slots 1..6, then right-stack slots 1..6. -/
def zoneTable (L : Layout) : List (Zone × (State → State × List Call)) :=
  [(⟨L.L_frame_left, L.L_frame_right, 1⟩, leftSlot1),
   (⟨L.L_frame_left, L.L_frame_right, 2⟩, leftSlot2),
   (⟨L.L_frame_left, L.L_frame_right, 3⟩, leftSlot3),
   (⟨L.L_frame_left, L.L_frame_right, 4⟩, leftSlot4),
   (⟨L.L_frame_left, L.L_frame_right, 5⟩, leftSlot5),
   (⟨L.L_frame_left, L.L_frame_right, 6⟩, leftSlot6),
   (⟨L.R_frame_left, L.R_frame_right, 1⟩, rightSlot1),
   (⟨L.R_frame_left, L.R_frame_right, 2⟩, rightSlot2),
   (⟨L.R_frame_left, L.R_frame_right, 3⟩, rightSlot3),
   (⟨L.R_frame_left, L.R_frame_right, 4⟩, rightSlot4 L),
   (⟨L.R_frame_left, L.R_frame_right, 5⟩, rightSlot5),
   (⟨L.R_frame_left, L.R_frame_right, 6⟩, rightSlot6)]

/-- First matching rectangle wins: the action of the first zone of the list that
contains the point is performed, with `B_num` at that zone's slot number, and
no other; without a match nothing is performed (`B_num` keeps the slot number
tested last). -/
def firstMatch (L : Layout) (x : Int) (y : Nat) (s : State) :
    List (Zone × (State → State × List Call)) → State × List Call
  | [] => ({ s with B_num := 6 }, [])
  | (z, act) :: rest =>
    if z.contains L x y then act { s with B_num := z.slot } else firstMatch L x y s rest

/-- The driver reports the coordinates `c` on this poll: whatever array it is
handed, `getTScoordinates` leaves the coordinates of `c` in every active slot
(slot 0 when at least one contact is sampled, slot 1 when at least two are). -/
def Poll.reports (p : Poll) (c : Coordinates) : Prop :=
  ∀ a : Coordinates,
    (1 ≤ toUInt8 p.getTouches →
      (p.getTScoordinates a).x0 = c.x0 ∧ (p.getTScoordinates a).y0 = c.y0) ∧
    (2 ≤ toUInt8 p.getTouches →
      (p.getTScoordinates a).x1 = c.x1 ∧ (p.getTScoordinates a).y1 = c.y1)

/-- The value `v` limited to the interval from `lo` to `hi`. -/
def clamp (v lo hi : Int) : Int :=
  max lo (min hi v)

/-! ## Concrete data for the scenarios -/

/-- An 800x480 layout with six 70-pixel slots per stack. -/
def demoLayout : Layout :=
  ⟨0, 100, 700, 800, 60, 70, fun _ => 0⟩

/-- Program start with some radio settings. -/
def demoState : State :=
  State.init ⟨⟨⟨0, 0, 0, 0⟩, ⟨0, 0, 0, 0⟩, ⟨0, 0, 0, 0⟩⟩, 0, 0, 3, 4, 1, 7000000, 0, 0,
    fun _ => ⟨0, 5000, 0, 0, 800, 400⟩⟩

/-- A poll with a touch event on which the driver reports `n` contacts and
writes `c` into the array it is handed. -/
def sample (n : Nat) (c : Coordinates) (expired : Bool) : Poll :=
  ⟨true, n, fun _ => c, expired⟩

/-- A poll with a touch event and zero contacts on which the driver writes
nothing into the array it is handed. -/
def release : Poll :=
  ⟨true, 0, id, false⟩

/-! ## The four states of `Touch` -/

theorem Touch_untouched (L : Layout) (s : State) (p : Poll) (h : p.touched = false) :
    Touch L s p = (s, []) := by
  simp [Touch, h]

theorem Touch_idle (L : Layout) (s : State) (p : Poll) (h : p.isLift)
    (h0 : s.previous_touch = 0) : Touch L s p = (s, []) := by
  simp [Touch, h.1, h.2, h0]

theorem Touch_down (L : Layout) (s : State) (p : Poll) (h : p.isDown)
    (h0 : s.previous_touch = 0) :
    Touch L s p =
      ({ s with
          previous_touch := toUInt8 p.getTouches
          touch_evt :=
            { s.touch_evt with
              start_coordinates := p.getTScoordinates s.touch_evt.start_coordinates
              last_coordinates := p.getTScoordinates s.touch_evt.last_coordinates } },
        [Call.gesture_timer_reset]) := by
  simp [Touch, h.1, h.2, h0]

theorem Touch_held (L : Layout) (s : State) (p : Poll) (h : p.isHeld)
    (h0 : s.previous_touch ≠ 0) :
    Touch L s p =
      ({ s with
          touch_evt :=
            { s.touch_evt with
              last_coordinates := p.getTScoordinates s.touch_evt.last_coordinates } },
        [Call.gesture_timer_check]) := by
  simp [Touch, h.1, h.2.1, h.2.2, h0]

theorem Touch_expired (L : Layout) (s : State) (p : Poll) (h : p.isExpired)
    (h0 : s.previous_touch ≠ 0) :
    Touch L s p = ({ s with previous_touch := 0 }, [Call.gesture_timer_check]) := by
  simp [Touch, h.1, h.2.1, h.2.2, h0]

theorem Touch_lift (L : Layout) (s : State) (p : Poll) (h : p.isLift)
    (h0 : s.previous_touch ≠ 0) : Touch L s p = touchLift L s p := by
  simp [Touch, h.1, h.2, h0]

theorem run_append (L : Layout) (s : State) (ps qs : List Poll) :
    run L s (ps ++ qs) =
      ((run L (run L s ps).1 qs).1, (run L s ps).2 ++ (run L (run L s ps).1 qs).2) := by
  induction ps generalizing s with
  | nil => simp [run]
  | cons p ps ih => simp [run, ih, List.append_assoc]

theorem run_single (L : Layout) (s : State) (p : Poll) : run L s [p] = Touch L s p := by
  simp [run]

/-- A property of both branches of a conditional holds of the conditional. -/
theorem ite_cases {α : Type} (P : α → Prop) (c : Prop) [Decidable c] {a b : α}
    (ha : P a) (hb : P b) : P (if c then a else b) := by
  by_cases h : c
  · rw [if_pos h]; exact ha
  · rw [if_neg h]; exact hb

/-- Case analysis on the zone `Button_Handler` hits. -/
theorem Button_Handler_cases (P : State × List Call → Prop) (L : Layout) (x : Int) (y : Nat)
    (s : State)
    (l1 : P (leftSlot1 { s with B_num := 1 })) (l2 : P (leftSlot2 { s with B_num := 2 }))
    (l3 : P (leftSlot3 { s with B_num := 3 })) (l4 : P (leftSlot4 { s with B_num := 4 }))
    (l5 : P (leftSlot5 { s with B_num := 5 })) (l6 : P (leftSlot6 { s with B_num := 6 }))
    (r1 : P (rightSlot1 { s with B_num := 1 })) (r2 : P (rightSlot2 { s with B_num := 2 }))
    (r3 : P (rightSlot3 { s with B_num := 3 })) (r4 : P (rightSlot4 L { s with B_num := 4 }))
    (r5 : P (rightSlot5 { s with B_num := 5 })) (r6 : P (rightSlot6 { s with B_num := 6 }))
    (none : P ({ s with B_num := 6 }, [])) : P (Button_Handler L x y s) := by
  unfold Button_Handler
  exact ite_cases P _ l1 (ite_cases P _ l2 (ite_cases P _ l3 (ite_cases P _ l4
    (ite_cases P _ l5 (ite_cases P _ l6 (ite_cases P _ r1 (ite_cases P _ r2
      (ite_cases P _ r3 (ite_cases P _ r4 (ite_cases P _ r5 (ite_cases P _ r6 none)))))))))))

/-- The handlers never assign `touch_evt` or `previous_touch`. -/
theorem Button_Handler_tracker (L : Layout) (x : Int) (y : Nat) (s : State) :
    (Button_Handler L x y s).1.touch_evt = s.touch_evt ∧
      (Button_Handler L x y s).1.previous_touch = s.previous_touch := by
  apply Button_Handler_cases
    (fun r => r.1.touch_evt = s.touch_evt ∧ r.1.previous_touch = s.previous_touch) <;>
    simp [leftSlot1, leftSlot2, leftSlot3, leftSlot4, leftSlot5, leftSlot6, rightSlot1,
      rightSlot2, rightSlot3, rightSlot4, rightSlot5, rightSlot6, bandChange]

/-- The calls made inside `Button_Handler` are neither handler nor callback calls. -/
theorem Button_Handler_calls (L : Layout) (x : Int) (y : Nat) (s : State) :
    (Button_Handler L x y s).2.filter Call.isHandler = [] ∧
      (Button_Handler L x y s).2.filter Call.isCallback = [] := by
  apply Button_Handler_cases
    (fun r => r.2.filter Call.isHandler = [] ∧ r.2.filter Call.isCallback = []) <;>
    simp [leftSlot1, leftSlot2, leftSlot3, leftSlot4, leftSlot5, leftSlot6, rightSlot1,
      rightSlot2, rightSlot3, rightSlot4, rightSlot5, rightSlot6, bandChange,
      Call.isHandler, Call.isCallback]

theorem swipePath_tracker (s : State) :
    (swipePath s).1.touch_evt = s.touch_evt ∧
      (swipePath s).1.previous_touch = s.previous_touch ∧
      (swipePath s).2.filter Call.isHandler = [] := by
  simp only [swipePath]
  apply ite_cases (fun r : State × List Call => r.1.touch_evt = s.touch_evt ∧
    r.1.previous_touch = s.previous_touch ∧ r.2.filter Call.isHandler = [])
  · apply ite_cases (fun r : State × List Call => r.1.touch_evt = s.touch_evt ∧
      r.1.previous_touch = s.previous_touch ∧ r.2.filter Call.isHandler = []) <;>
      simp [Set_Spectrum_RefLvl, Call.isHandler]
  · simp

theorem pinchPath_tracker (s : State) :
    (pinchPath s).1.touch_evt = s.touch_evt ∧
      (pinchPath s).1.previous_touch = s.previous_touch ∧
      (pinchPath s).2.filter Call.isHandler = [] := by
  simp only [pinchPath, Set_Spectrum_Scale]
  apply ite_cases (fun r : State × List Call => r.1.touch_evt = s.touch_evt ∧
    r.1.previous_touch = s.previous_touch ∧ r.2.filter Call.isHandler = []) <;>
    simp [Call.isHandler]

theorem Gesture_Handler_tracker (g : Nat) (s : State) :
    (Gesture_Handler g s).1.touch_evt = s.touch_evt ∧
      (Gesture_Handler g s).1.previous_touch = s.previous_touch := by
  unfold Gesture_Handler
  apply ite_cases (fun r : State × List Call => r.1.touch_evt = s.touch_evt ∧
    r.1.previous_touch = s.previous_touch)
  · exact ⟨(swipePath_tracker s).1, (swipePath_tracker s).2.1⟩
  · apply ite_cases (fun r : State × List Call => r.1.touch_evt = s.touch_evt ∧
      r.1.previous_touch = s.previous_touch)
    · exact ⟨(pinchPath_tracker s).1, (pinchPath_tracker s).2.1⟩
    · exact ⟨rfl, rfl⟩

theorem Gesture_Handler_calls (g : Nat) (s : State) :
    (Gesture_Handler g s).2.filter Call.isHandler = [] := by
  unfold Gesture_Handler
  apply ite_cases (fun r : State × List Call => r.2.filter Call.isHandler = [])
  · exact (swipePath_tracker s).2.2
  · apply ite_cases (fun r : State × List Call => r.2.filter Call.isHandler = [])
    · exact (pinchPath_tracker s).2.2
    · rfl

theorem liftDispatch_tracker (L : Layout) (s : State) :
    (liftDispatch L s).1.touch_evt = s.touch_evt ∧
      (liftDispatch L s).1.previous_touch = s.previous_touch := by
  simp only [liftDispatch]
  apply ite_cases (fun r : State × List Call => r.1.touch_evt = s.touch_evt ∧
    r.1.previous_touch = s.previous_touch)
  · simp [Button_Handler_tracker]
  · simp [Gesture_Handler_tracker]

/-- When the button test succeeds the dispatch is one `Button_Handler` call at
the start coordinates of contact 0. -/
theorem liftDispatch_button (L : Layout) (s : State)
    (h : s.previous_touch = 1 ∧
      (s.touch_evt.distance.x0.natAbs < BUTTON_TOUCH ∧
        s.touch_evt.distance.y0.natAbs < BUTTON_TOUCH)) :
    (liftDispatch L s).2 =
      Call.Button_Handler s.touch_evt.start_coordinates.x0 s.touch_evt.start_coordinates.y0 ::
        (Button_Handler L (toInt16 s.touch_evt.start_coordinates.x0)
          s.touch_evt.start_coordinates.y0 s).2 := by
  simp only [liftDispatch, if_pos h]

/-- When the button test fails the dispatch is `Gesture_Handler` with the latch
as its code. -/
theorem liftDispatch_gesture (L : Layout) (s : State)
    (h : ¬(s.previous_touch = 1 ∧
      (s.touch_evt.distance.x0.natAbs < BUTTON_TOUCH ∧
        s.touch_evt.distance.y0.natAbs < BUTTON_TOUCH))) :
    liftDispatch L s =
      ((Gesture_Handler s.previous_touch s).1,
        Call.Gesture_Handler s.previous_touch :: (Gesture_Handler s.previous_touch s).2) := by
  simp only [liftDispatch, if_neg h]

/-- STATE 4 leaves `start_coordinates` alone, stores the driver's answer in
`last_coordinates`, and ends with the latch and all distances zero. -/
theorem touchLift_tracker (L : Layout) (s : State) (p : Poll) :
    (touchLift L s p).1.touch_evt =
        ⟨s.touch_evt.start_coordinates, p.getTScoordinates s.touch_evt.last_coordinates,
          ⟨0, 0, 0, 0⟩⟩ ∧
      (touchLift L s p).1.previous_touch = 0 := by
  simp only [touchLift, (liftDispatch_tracker L (liftState s p)).1]
  simp [liftState]

/-- Touch-Held polls with an unexpired timer only refresh `last_coordinates`. -/
theorem run_held (L : Layout) (held : List Poll) (hh : ∀ p ∈ held, p.isHeld) (s : State)
    (h0 : s.previous_touch ≠ 0) :
    (run L s held).1.previous_touch = s.previous_touch ∧
      (run L s held).1.touch_evt.start_coordinates = s.touch_evt.start_coordinates ∧
      (run L s held).1.touch_evt.distance = s.touch_evt.distance ∧
      (run L s held).2.filter Call.isHandler = [] ∧
      (run L s held).2.filter Call.isCallback = [] := by
  induction held generalizing s with
  | nil => simp [run]
  | cons p ps ih =>
    have hp : p.isHeld := hh p (List.mem_cons_self p ps)
    have hps : ∀ q ∈ ps, q.isHeld := fun q hq => hh q (List.mem_cons_of_mem p hq)
    have ht := Touch_held L s p hp h0
    have hrec := ih hps (Touch L s p).1 (by rw [ht]; exact h0)
    simp only [run]
    rw [ht] at hrec ⊢
    simpa [Call.isHandler, Call.isCallback] using hrec

/-- At Touch-Lift with latch 1 and a contact-0 displacement below `BUTTON_TOUCH`
on both axes, the one handler call is `Button_Handler` at the start coordinates. -/
theorem touchLift_button (L : Layout) (s : State) (p : Poll) (h1 : s.previous_touch = 1)
    (hx : |((p.getTScoordinates s.touch_evt.last_coordinates).x0 : Int) -
        s.touch_evt.start_coordinates.x0| < 40)
    (hy : |((p.getTScoordinates s.touch_evt.last_coordinates).y0 : Int) -
        s.touch_evt.start_coordinates.y0| < 40) :
    (touchLift L s p).2.filter Call.isHandler =
        [Call.Button_Handler s.touch_evt.start_coordinates.x0 s.touch_evt.start_coordinates.y0] ∧
      (touchLift L s p).2.filter Call.isCallback = [] := by
  rw [abs_lt] at hx hy
  have cx : (toInt16 (((p.getTScoordinates s.touch_evt.last_coordinates).x0 : Int) -
      s.touch_evt.start_coordinates.x0)).natAbs < BUTTON_TOUCH := by
    unfold toInt16 BUTTON_TOUCH; omega
  have cy : (toInt16 (((p.getTScoordinates s.touch_evt.last_coordinates).y0 : Int) -
      s.touch_evt.start_coordinates.y0)).natAbs < BUTTON_TOUCH := by
    unfold toInt16 BUTTON_TOUCH; omega
  have hc : (liftState s p).previous_touch = 1 ∧
      ((liftState s p).touch_evt.distance.x0.natAbs < BUTTON_TOUCH ∧
        (liftState s p).touch_evt.distance.y0.natAbs < BUTTON_TOUCH) :=
    ⟨h1, cx, cy⟩
  simp only [touchLift, liftDispatch_button L _ hc]
  simp [Call.isHandler, Call.isCallback, Button_Handler_calls, liftState]

/-- C1: a single-contact gesture (Touch-Down with one contact recording start
`(sx,sy)`, then Touch-Held polls with unexpired timer, then a Touch-Lift whose
final contact-0 coordinates `(ex,ey)` are within 40 pixels of the start on both
axes) makes exactly one handler call over the whole gesture, and that call is
`Button_Handler` with the start coordinates `(sx,sy)`; no `Gesture_Handler`
call and no spectrum callback occurs. -/
theorem C1_button_uses_start_coordinates (L : Layout) (s : State) (down lift : Poll)
    (held : List Poll) (sx sy ex ey : Nat)
    (h0 : s.previous_touch = 0)
    (hd : down.isDown) (hd1 : toUInt8 down.getTouches = 1)
    (hsx : (down.getTScoordinates s.touch_evt.start_coordinates).x0 = sx)
    (hsy : (down.getTScoordinates s.touch_evt.start_coordinates).y0 = sy)
    (hh : ∀ p ∈ held, p.isHeld)
    (hl : lift.isLift)
    (hex : (lift.getTScoordinates (run L s (down :: held)).1.touch_evt.last_coordinates).x0 = ex)
    (hey : (lift.getTScoordinates (run L s (down :: held)).1.touch_evt.last_coordinates).y0 = ey)
    (hx : |(ex : Int) - sx| < 40) (hy : |(ey : Int) - sy| < 40) :
    (run L s (down :: held ++ [lift])).2.filter Call.isHandler = [Call.Button_Handler sx sy] ∧
      (run L s (down :: held ++ [lift])).2.filter Call.isCallback = [] ∧
      (run L s (down :: held ++ [lift])).1.touch_evt.last_coordinates.x0 = ex ∧
      (run L s (down :: held ++ [lift])).1.touch_evt.last_coordinates.y0 = ey := by
  have hdown := Touch_down L s down hd h0
  have hrun : run L s (down :: held) =
      ((run L (Touch L s down).1 held).1, (Touch L s down).2 ++ (run L (Touch L s down).1 held).2) := by
    simp [run]
  have hprev : (Touch L s down).1.previous_touch = 1 := by rw [hdown]; exact hd1
  have hheld := run_held L held hh (Touch L s down).1 (by rw [hprev]; decide)
  have hstart : (Touch L s down).1.touch_evt.start_coordinates =
      down.getTScoordinates s.touch_evt.start_coordinates := by rw [hdown]
  obtain ⟨hp, hst, -, hcalls, hcb⟩ := hheld
  have hmid1 : (run L s (down :: held)).1.previous_touch = 1 := by
    rw [hrun]; simp only []; rw [hp, hprev]
  have hmidst : (run L s (down :: held)).1.touch_evt.start_coordinates =
      down.getTScoordinates s.touch_evt.start_coordinates := by
    rw [hrun]; simp only []; rw [hst, hstart]
  have hmidcalls : (run L s (down :: held)).2.filter Call.isHandler = [] ∧
      (run L s (down :: held)).2.filter Call.isCallback = [] := by
    rw [hrun]; simp only [List.filter_append, hcalls, hcb]
    rw [hdown]; simp [Call.isHandler, Call.isCallback]
  have hlift := Touch_lift L (run L s (down :: held)).1 lift hl (by rw [hmid1]; decide)
  have hb := touchLift_button L (run L s (down :: held)).1 lift hmid1
    (by rw [hex, hmidst, hsx]; exact hx) (by rw [hey, hmidst, hsy]; exact hy)
  rw [hmidst, hsx, hsy] at hb
  have happ : down :: held ++ [lift] = (down :: held) ++ [lift] := by simp
  rw [happ, run_append, run_single, hlift]
  refine ⟨?_, ?_, ?_, ?_⟩
  · simp only [List.filter_append, hmidcalls.1, hb.1, List.nil_append]
  · simp only [List.filter_append, hmidcalls.2, hb.2, List.nil_append]
  · rw [(touchLift_tracker L _ lift).1]; exact hex
  · rw [(touchLift_tracker L _ lift).1]; exact hey

theorem C1_witness :
    (run demoLayout demoState
        [sample 1 ⟨100, 100, 0, 0⟩ false, sample 1 ⟨101, 100, 0, 0⟩ false,
          sample 1 ⟨102, 101, 0, 0⟩ false, sample 0 ⟨105, 103, 0, 0⟩ false]).2.filter
        Call.isHandler = [Call.Button_Handler 100 100] :=
  (C1_button_uses_start_coordinates demoLayout demoState (sample 1 ⟨100, 100, 0, 0⟩ false)
    (sample 0 ⟨105, 103, 0, 0⟩ false)
    [sample 1 ⟨101, 100, 0, 0⟩ false, sample 1 ⟨102, 101, 0, 0⟩ false] 100 100 105 103
    rfl ⟨rfl, by decide⟩ rfl rfl rfl
    (by simp [Poll.isHeld, sample, toUInt8])
    ⟨rfl, rfl⟩ rfl rfl (by decide) (by decide)).1

/-- Within the `int16_t` range the conversion is the identity. -/
theorem toInt16_of_range (v : Int) (lo : -32768 ≤ v) (hi : v ≤ 32767) : toInt16 v = v := by
  unfold toInt16; omega

/-- At Touch-Lift, when the button test fails the one handler call is
`Gesture_Handler` with the latch as its code. -/
theorem touchLift_gesture (L : Layout) (s : State) (p : Poll)
    (h : ¬(s.previous_touch = 1 ∧
      ((toInt16 (((p.getTScoordinates s.touch_evt.last_coordinates).x0 : Int) -
          s.touch_evt.start_coordinates.x0)).natAbs < BUTTON_TOUCH ∧
        (toInt16 (((p.getTScoordinates s.touch_evt.last_coordinates).y0 : Int) -
          s.touch_evt.start_coordinates.y0)).natAbs < BUTTON_TOUCH))) :
    (touchLift L s p).2.filter Call.isHandler = [Call.Gesture_Handler s.previous_touch] := by
  have hc : ¬((liftState s p).previous_touch = 1 ∧
      ((liftState s p).touch_evt.distance.x0.natAbs < BUTTON_TOUCH ∧
        (liftState s p).touch_evt.distance.y0.natAbs < BUTTON_TOUCH)) := h
  simp only [touchLift, liftDispatch_gesture L _ hc]
  simp [Call.isHandler, Gesture_Handler_calls, liftState]

/-- C2: at a Touch-Lift poll with latch 1 whose contact-0 displacement
`(dx,dy) = last - start`, the value stored in `distance`, reaches 40 on some
axis, the one handler call is `Gesture_Handler(1)` (no `Button_Handler`); the
stored value is the difference `last - start` itself whenever that difference
lies within `[-32768, 32767]`, as it does for all panel coordinates; and with
latch 2 the one handler call is `Gesture_Handler(2)` whatever the
displacements. -/
theorem C2_gesture_dispatch (L : Layout) (s : State) (lift : Poll) (hl : lift.isLift) :
    (s.previous_touch = 1 →
      (40 ≤ |toInt16 (((lift.getTScoordinates s.touch_evt.last_coordinates).x0 : Int) -
            s.touch_evt.start_coordinates.x0)| ∨
        40 ≤ |toInt16 (((lift.getTScoordinates s.touch_evt.last_coordinates).y0 : Int) -
            s.touch_evt.start_coordinates.y0)|) →
      (Touch L s lift).2.filter Call.isHandler = [Call.Gesture_Handler 1]) ∧
    (s.previous_touch = 1 →
      |((lift.getTScoordinates s.touch_evt.last_coordinates).x0 : Int) -
          s.touch_evt.start_coordinates.x0| ≤ 32767 →
      |((lift.getTScoordinates s.touch_evt.last_coordinates).y0 : Int) -
          s.touch_evt.start_coordinates.y0| ≤ 32767 →
      (40 ≤ |((lift.getTScoordinates s.touch_evt.last_coordinates).x0 : Int) -
            s.touch_evt.start_coordinates.x0| ∨
        40 ≤ |((lift.getTScoordinates s.touch_evt.last_coordinates).y0 : Int) -
            s.touch_evt.start_coordinates.y0|) →
      (Touch L s lift).2.filter Call.isHandler = [Call.Gesture_Handler 1]) ∧
    (s.previous_touch = 2 →
      (Touch L s lift).2.filter Call.isHandler = [Call.Gesture_Handler 2]) := by
  refine ⟨?_, ?_, ?_⟩
  · intro h1 hd
    rw [Touch_lift L s lift hl (by rw [h1]; decide), touchLift_gesture, h1]
    rintro ⟨-, hx, hy⟩
    simp only [le_abs] at hd
    unfold BUTTON_TOUCH at hx hy
    omega
  · intro h1 bx hy' hd
    rw [Touch_lift L s lift hl (by rw [h1]; decide), touchLift_gesture, h1]
    rintro ⟨-, hx, hy⟩
    simp only [le_abs] at hd
    rw [abs_le] at bx hy'
    unfold BUTTON_TOUCH at hx hy
    unfold toInt16 at hx hy
    omega
  · intro h2
    rw [Touch_lift L s lift hl (by rw [h2]; decide), touchLift_gesture, h2]
    rintro ⟨h, -⟩
    rw [h2] at h
    exact absurd h (by decide)

theorem C2_witness :
    (Touch demoLayout (run demoLayout demoState [sample 1 ⟨100, 400, 0, 0⟩ false]).1
        (sample 0 ⟨100, 300, 0, 0⟩ false)).2.filter Call.isHandler =
      [Call.Gesture_Handler 1] ∧
    (Touch demoLayout
        { demoState with
          previous_touch := 2
          touch_evt := ⟨⟨50, 50, 150, 150⟩, ⟨60, 60, 140, 140⟩, ⟨0, 0, 0, 0⟩⟩ }
        (sample 0 ⟨90, 90, 110, 110⟩ false)).2.filter Call.isHandler =
      [Call.Gesture_Handler 2] :=
  ⟨(C2_gesture_dispatch demoLayout
      (run demoLayout demoState [sample 1 ⟨100, 400, 0, 0⟩ false]).1
      (sample 0 ⟨100, 300, 0, 0⟩ false) ⟨rfl, rfl⟩).2.1 (by decide) (by decide) (by decide)
      (by decide),
    (C2_gesture_dispatch demoLayout
      { demoState with
        previous_touch := 2
        touch_evt := ⟨⟨50, 50, 150, 150⟩, ⟨60, 60, 140, 140⟩, ⟨0, 0, 0, 0⟩⟩ }
      (sample 0 ⟨90, 90, 110, 110⟩ false) ⟨rfl, rfl⟩).2.2 rfl⟩

/-- Code 1 selects the swipe path. -/
theorem Gesture_Handler_one (s : State) : Gesture_Handler 1 s = swipePath s := by
  simp [Gesture_Handler]

/-- Code 2 selects the pinch path. -/
theorem Gesture_Handler_two (s : State) : Gesture_Handler 2 s = pinchPath s := by
  simp [Gesture_Handler]

/-- The swipe path when the vertical displacement does not dominate. -/
theorem swipePath_horizontal (s : State)
    (h : |s.touch_evt.distance.y0| ≤ |s.touch_evt.distance.x0|) : swipePath s = (s, []) := by
  rw [Int.abs_eq_natAbs, Int.abs_eq_natAbs] at h
  have hn : ¬ s.touch_evt.distance.y0.natAbs > s.touch_evt.distance.x0.natAbs := by omega
  simp only [swipePath, if_neg hn]

/-- C3: in the swipe path of `Gesture_Handler` (code 1) with contact-0
displacement `(dx,dy)`: if `|dy| > |dx|` the vertical branch runs, calling
`Set_Spectrum_RefLvl(-1)` when `dy > 0` and `Set_Spectrum_RefLvl(1)` when
`dy < 0`, and nothing else; if `|dy| < |dx|` the horizontal branch runs, which
calls nothing and leaves the state as it was. In the scenario start `(100,400)`,
lift `(100,300)` the calls are `Gesture_Handler(1)` then `Set_Spectrum_RefLvl(1)`. -/
theorem C3_swipe_direction (s : State) (dx dy : Int)
    (hx : s.touch_evt.distance.x0 = dx) (hy : s.touch_evt.distance.y0 = dy) :
    (|dy| > |dx| → dy > 0 →
      Gesture_Handler 1 s = ((Set_Spectrum_RefLvl (-1) s).1, [Call.Set_Spectrum_RefLvl (-1)])) ∧
    (|dy| > |dx| → dy < 0 →
      Gesture_Handler 1 s = ((Set_Spectrum_RefLvl 1 s).1, [Call.Set_Spectrum_RefLvl 1])) ∧
    (|dy| < |dx| → Gesture_Handler 1 s = (s, [])) ∧
    (run demoLayout demoState
        [sample 1 ⟨100, 400, 0, 0⟩ false, sample 1 ⟨100, 350, 0, 0⟩ false,
          sample 0 ⟨100, 300, 0, 0⟩ false]).2 =
      [Call.gesture_timer_reset, Call.gesture_timer_check, Call.Gesture_Handler 1,
        Call.Set_Spectrum_RefLvl 1] := by
  subst hx hy
  refine ⟨?_, ?_, ?_, by decide⟩
  · intro h hpos
    rw [Int.abs_eq_natAbs, Int.abs_eq_natAbs] at h
    have hn : s.touch_evt.distance.y0.natAbs > s.touch_evt.distance.x0.natAbs := by omega
    rw [Gesture_Handler_one]
    simp only [swipePath, if_pos hn, if_pos hpos]
    simp [Set_Spectrum_RefLvl]
  · intro h hneg
    rw [Int.abs_eq_natAbs, Int.abs_eq_natAbs] at h
    have hn : s.touch_evt.distance.y0.natAbs > s.touch_evt.distance.x0.natAbs := by omega
    have hnp : ¬ s.touch_evt.distance.y0 > 0 := by omega
    rw [Gesture_Handler_one]
    simp only [swipePath, if_pos hn, if_neg hnp]
    simp [Set_Spectrum_RefLvl]
  · intro h
    rw [Gesture_Handler_one]
    exact swipePath_horizontal s (le_of_lt h)

theorem C3_witness :
    (Gesture_Handler 1
        (liftState
          (run demoLayout demoState
            [sample 1 ⟨100, 400, 0, 0⟩ false, sample 1 ⟨100, 350, 0, 0⟩ false]).1
          (sample 0 ⟨100, 300, 0, 0⟩ false))).2 = [Call.Set_Spectrum_RefLvl 1] :=
  congrArg Prod.snd
    ((C3_swipe_direction
      (liftState
        (run demoLayout demoState
          [sample 1 ⟨100, 400, 0, 0⟩ false, sample 1 ⟨100, 350, 0, 0⟩ false]).1
        (sample 0 ⟨100, 300, 0, 0⟩ false)) 0 (-100) (by decide) (by decide)).2.1
      (by decide) (by decide))

/-- C4 (as amended): at a Touch-Lift with latch 1 whose stored contact-0
displacement is a tie `|dy| = |dx|` with `|dx| ≥ 40`, `Touch` calls
`Gesture_Handler(1)` and the classifier resolves to horizontal: the `else`
branch runs, no reference-level callback is called and the state handed to the
handler comes back as it was. -/
theorem C4_tie_is_horizontal (L : Layout) (s : State) (lift : Poll) (hl : lift.isLift)
    (h1 : s.previous_touch = 1)
    (htie : |(liftState s lift).touch_evt.distance.y0| =
      |(liftState s lift).touch_evt.distance.x0|)
    (h40 : 40 ≤ |(liftState s lift).touch_evt.distance.x0|) :
    (Touch L s lift).2 = [Call.Gesture_Handler 1] ∧
      Gesture_Handler 1 (liftState s lift) = (liftState s lift, []) := by
  have hg : Gesture_Handler 1 (liftState s lift) = (liftState s lift, []) := by
    rw [Gesture_Handler_one]
    exact swipePath_horizontal _ (le_of_eq htie)
  refine ⟨?_, hg⟩
  have hc : ¬((liftState s lift).previous_touch = 1 ∧
      ((liftState s lift).touch_evt.distance.x0.natAbs < BUTTON_TOUCH ∧
        (liftState s lift).touch_evt.distance.y0.natAbs < BUTTON_TOUCH)) := by
    rintro ⟨-, hx, -⟩
    rw [Int.abs_eq_natAbs] at h40
    unfold BUTTON_TOUCH at hx
    omega
  have h1' : (liftState s lift).previous_touch = 1 := h1
  rw [Touch_lift L s lift hl (by rw [h1]; decide)]
  simp only [touchLift, liftDispatch_gesture L _ hc, h1', hg]

theorem C4_witness :
    (Touch demoLayout (run demoLayout demoState [sample 1 ⟨100, 100, 0, 0⟩ false]).1
        (sample 0 ⟨150, 150, 0, 0⟩ false)).2 = [Call.Gesture_Handler 1] :=
  (C4_tie_is_horizontal demoLayout
    (run demoLayout demoState [sample 1 ⟨100, 100, 0, 0⟩ false]).1
    (sample 0 ⟨150, 150, 0, 0⟩ false) ⟨rfl, rfl⟩ (by decide) (by decide) (by decide)).1

/-- C4 as stated fails: a single contact pressed at `(100,100)` and lifted at
`(150,150)` has `dx = dy = 50`, a tie with `|dx| ≥ 40`, and `Gesture_Handler(1)`
calls no reference-level callback: the tie takes the horizontal branch. -/
theorem C4_counterexample :
    (liftState (run demoLayout demoState [sample 1 ⟨100, 100, 0, 0⟩ false]).1
        (sample 0 ⟨150, 150, 0, 0⟩ false)).touch_evt.distance = ⟨50, 50, 0, 0⟩ ∧
      (Gesture_Handler 1
        (liftState (run demoLayout demoState [sample 1 ⟨100, 100, 0, 0⟩ false]).1
          (sample 0 ⟨150, 150, 0, 0⟩ false))).2 = [] ∧
      (run demoLayout demoState
        [sample 1 ⟨100, 100, 0, 0⟩ false, sample 0 ⟨150, 150, 0, 0⟩ false]).2 =
        [Call.gesture_timer_reset, Call.Gesture_Handler 1] := by
  decide

/-- Within the panel range the `int16_t` distance of `pinchPath` is the
integer-truncated Euclidean distance. -/
theorem dist16_inPanel (c : Coordinates) (hc : c.inPanel) :
    dist16 (toInt16 c.x1 - toInt16 c.x0) (toInt16 c.y1 - toInt16 c.y0) =
      (truncDistance c : Int) := by
  obtain ⟨h0, h1, h2, h3⟩ := hc
  have e0 : toInt16 c.x0 = c.x0 := toInt16_of_range _ (by omega) (by omega)
  have e1 : toInt16 c.y0 = c.y0 := toInt16_of_range _ (by omega) (by omega)
  have e2 : toInt16 c.x1 = c.x1 := toInt16_of_range _ (by omega) (by omega)
  have e3 : toInt16 c.y1 = c.y1 := toInt16_of_range _ (by omega) (by omega)
  rw [e0, e1, e2, e3]
  have hsq : (((c.x1 : Int) - c.x0) * ((c.x1 : Int) - c.x0) +
      ((c.y1 : Int) - c.y0) * ((c.y1 : Int) - c.y0)).toNat = sqDistance c := by
    unfold sqDistance
    have hx := Int.natAbs_mul_self (a := (c.x1 : Int) - c.x0)
    have hy := Int.natAbs_mul_self (a := (c.y1 : Int) - c.y0)
    rw [← hx, ← hy, pow_two, pow_two]
    exact_mod_cast Int.toNat_natCast _
  have hbx : ((c.x1 : Int) - c.x0).natAbs ≤ 4095 := by omega
  have hby : ((c.y1 : Int) - c.y0).natAbs ≤ 4095 := by omega
  have hlt : truncDistance c < 32768 := by
    unfold truncDistance
    rw [Nat.sqrt_lt']
    unfold sqDistance
    have px := Nat.pow_le_pow_left hbx 2
    have py := Nat.pow_le_pow_left hby 2
    norm_num at px py ⊢
    omega
  unfold dist16
  rw [hsq]
  exact toInt16_of_range _ (by omega) (by unfold truncDistance at hlt; omega)

/-- Within the panel range the pinch path makes one `Set_Spectrum_Scale` call,
whose direction compares the two truncated distances, and returns the state as
it was. -/
theorem pinchPath_inPanel (s : State) (hs : s.touch_evt.start_coordinates.inPanel)
    (hl : s.touch_evt.last_coordinates.inPanel) :
    pinchPath s =
      (s, [Call.Set_Spectrum_Scale
        (if truncDistance s.touch_evt.last_coordinates <
            truncDistance s.touch_evt.start_coordinates then -1 else 1)]) := by
  simp only [pinchPath, dist16_inPanel _ hs, dist16_inPanel _ hl, Set_Spectrum_Scale,
    Nat.cast_lt]
  by_cases h : truncDistance s.touch_evt.last_coordinates <
      truncDistance s.touch_evt.start_coordinates
  · simp only [if_pos h]
  · simp only [if_neg h]

/-- C5: in the pinch path of `Gesture_Handler` (code 2), for contact coordinates
below 4096, exactly one `Set_Spectrum_Scale` call is made and nothing else:
with direction `-1` iff the integer-truncated end distance is less than the
integer-truncated start distance, and with direction `1` otherwise (equality
included). -/
theorem C5_pinch_direction (s : State) (hs : s.touch_evt.start_coordinates.inPanel)
    (hl : s.touch_evt.last_coordinates.inPanel) :
    (Gesture_Handler 2 s).2 =
        [Call.Set_Spectrum_Scale
          (if truncDistance s.touch_evt.last_coordinates <
              truncDistance s.touch_evt.start_coordinates then -1 else 1)] ∧
      ((Gesture_Handler 2 s).2 = [Call.Set_Spectrum_Scale (-1)] ↔
        truncDistance s.touch_evt.last_coordinates <
          truncDistance s.touch_evt.start_coordinates) ∧
      ((Gesture_Handler 2 s).2 = [Call.Set_Spectrum_Scale 1] ↔
        ¬ truncDistance s.touch_evt.last_coordinates <
          truncDistance s.touch_evt.start_coordinates) := by
  rw [Gesture_Handler_two, pinchPath_inPanel s hs hl]
  by_cases h : truncDistance s.touch_evt.last_coordinates <
      truncDistance s.touch_evt.start_coordinates
  · simp [h]
  · simp [h]

theorem C5_witness :
    truncDistance ⟨50, 50, 150, 150⟩ = 141 ∧ truncDistance ⟨90, 90, 110, 110⟩ = 28 ∧
      (Gesture_Handler 2
        { demoState with
          previous_touch := 2
          touch_evt := ⟨⟨50, 50, 150, 150⟩, ⟨90, 90, 110, 110⟩, ⟨40, 40, -40, -40⟩⟩ }).2 =
        [Call.Set_Spectrum_Scale (-1)] := by
  have h1 : truncDistance ⟨50, 50, 150, 150⟩ = 141 := by
    have : sqDistance ⟨50, 50, 150, 150⟩ = 20000 := by decide
    unfold truncDistance; rw [this]; symm; rw [Nat.eq_sqrt]; decide
  have h2 : truncDistance ⟨90, 90, 110, 110⟩ = 28 := by
    have : sqDistance ⟨90, 90, 110, 110⟩ = 800 := by decide
    unfold truncDistance; rw [this]; symm; rw [Nat.eq_sqrt]; decide
  refine ⟨h1, h2, ?_⟩
  have h := (C5_pinch_direction
    { demoState with
      previous_touch := 2
      touch_evt := ⟨⟨50, 50, 150, 150⟩, ⟨90, 90, 110, 110⟩, ⟨40, 40, -40, -40⟩⟩ }
    (by decide) (by decide)).2.1
  exact h.2 (by rw [h1, h2]; decide)

/-- C6 (as amended): for a two-contact gesture with coordinates below 4096 the
direction passed to `Set_Spectrum_Scale` is `-1` iff the exact squared end
distance is less than the square of the integer-truncated start distance; so
`-1` implies that the exact end distance is strictly less than the exact start
distance, an end distance not less than the start distance gives `1`, and the
direction is always one of the two. -/
theorem C6_pinch_direction_truncated (s : State)
    (hs : s.touch_evt.start_coordinates.inPanel) (hl : s.touch_evt.last_coordinates.inPanel) :
    ((Gesture_Handler 2 s).2 = [Call.Set_Spectrum_Scale (-1)] ↔
        sqDistance s.touch_evt.last_coordinates <
          truncDistance s.touch_evt.start_coordinates ^ 2) ∧
      ((Gesture_Handler 2 s).2 = [Call.Set_Spectrum_Scale (-1)] →
        sqDistance s.touch_evt.last_coordinates < sqDistance s.touch_evt.start_coordinates) ∧
      (sqDistance s.touch_evt.start_coordinates ≤ sqDistance s.touch_evt.last_coordinates →
        (Gesture_Handler 2 s).2 = [Call.Set_Spectrum_Scale 1]) ∧
      ((Gesture_Handler 2 s).2 = [Call.Set_Spectrum_Scale (-1)] ∨
        (Gesture_Handler 2 s).2 = [Call.Set_Spectrum_Scale 1]) := by
  rw [Gesture_Handler_two, pinchPath_inPanel s hs hl]
  have key : truncDistance s.touch_evt.last_coordinates <
      truncDistance s.touch_evt.start_coordinates ↔
      sqDistance s.touch_evt.last_coordinates <
        truncDistance s.touch_evt.start_coordinates ^ 2 := by
    unfold truncDistance
    exact Nat.sqrt_lt'
  have hle : truncDistance s.touch_evt.start_coordinates ^ 2 ≤
      sqDistance s.touch_evt.start_coordinates := by
    unfold truncDistance
    exact Nat.sqrt_le' _
  by_cases h : truncDistance s.touch_evt.last_coordinates <
      truncDistance s.touch_evt.start_coordinates
  · have h' := key.1 h
    simp only [if_pos h, true_iff, true_or, and_true, true_and, true_implies]
    refine ⟨h', lt_of_lt_of_le h' hle, fun hge => ?_⟩
    exact absurd (lt_of_lt_of_le h' hle) (not_lt.2 hge)
  · have h' : ¬ sqDistance s.touch_evt.last_coordinates <
        truncDistance s.touch_evt.start_coordinates ^ 2 := fun hh => h (key.2 hh)
    simp [if_neg h, h']

theorem C6_witness :
    (Gesture_Handler 2
        { demoState with
          previous_touch := 2
          touch_evt := ⟨⟨50, 50, 150, 150⟩, ⟨50, 50, 150, 150⟩, ⟨0, 0, 0, 0⟩⟩ }).2 =
      [Call.Set_Spectrum_Scale 1] :=
  (C6_pinch_direction_truncated
    { demoState with
      previous_touch := 2
      touch_evt := ⟨⟨50, 50, 150, 150⟩, ⟨50, 50, 150, 150⟩, ⟨0, 0, 0, 0⟩⟩ }
    (by decide) (by decide)).2.2.1 (by decide)

/-- C6 as stated fails: two contacts pressed at `(0,0)` and `(2,1)` (exact
squared distance 5) and lifted at `(0,0)` and `(2,0)` (exact squared distance 4)
end strictly closer than they started, but both distances truncate to 2 and the
direction passed to `Set_Spectrum_Scale` is `1`, not `-1`. -/
theorem C6_counterexample :
    (liftState (run demoLayout demoState [sample 2 ⟨0, 0, 2, 1⟩ false]).1
        (sample 0 ⟨0, 0, 2, 0⟩ false)).touch_evt.start_coordinates = ⟨0, 0, 2, 1⟩ ∧
      (liftState (run demoLayout demoState [sample 2 ⟨0, 0, 2, 1⟩ false]).1
        (sample 0 ⟨0, 0, 2, 0⟩ false)).touch_evt.last_coordinates = ⟨0, 0, 2, 0⟩ ∧
      sqDistance ⟨0, 0, 2, 0⟩ < sqDistance ⟨0, 0, 2, 1⟩ ∧
      (Gesture_Handler 2
        (liftState (run demoLayout demoState [sample 2 ⟨0, 0, 2, 1⟩ false]).1
          (sample 0 ⟨0, 0, 2, 0⟩ false))).2 = [Call.Set_Spectrum_Scale 1] := by
  refine ⟨by decide, by decide, by decide, ?_⟩
  rw [Gesture_Handler_two, pinchPath_inPanel _ (by decide) (by decide)]
  have e1 : (liftState (run demoLayout demoState [sample 2 ⟨0, 0, 2, 1⟩ false]).1
      (sample 0 ⟨0, 0, 2, 0⟩ false)).touch_evt.start_coordinates = ⟨0, 0, 2, 1⟩ := by decide
  have e2 : (liftState (run demoLayout demoState [sample 2 ⟨0, 0, 2, 1⟩ false]).1
      (sample 0 ⟨0, 0, 2, 0⟩ false)).touch_evt.last_coordinates = ⟨0, 0, 2, 0⟩ := by decide
  have t1 : truncDistance ⟨0, 0, 2, 1⟩ = 2 := by
    have : sqDistance ⟨0, 0, 2, 1⟩ = 5 := by decide
    unfold truncDistance; rw [this]; symm; rw [Nat.eq_sqrt]; decide
  have t2 : truncDistance ⟨0, 0, 2, 0⟩ = 2 := by
    have : sqDistance ⟨0, 0, 2, 0⟩ = 4 := by decide
    unfold truncDistance; rw [this]; symm; rw [Nat.eq_sqrt]; decide
  simp only [e1, e2, t1, t2, lt_self_iff_false, if_false]

/-- C7: polled with a touch event, zero sampled contacts and latch 0, `Touch`
returns the state as it was (`start_coordinates`, `last_coordinates`,
`distance` and the latch in particular) and makes no call at all: no handler
is called and the gesture timer is neither reset nor checked. -/
theorem C7_idle_is_noop (L : Layout) (s : State) (p : Poll) (ht : p.touched = true)
    (hc : toUInt8 p.getTouches = 0) (h0 : s.previous_touch = 0) :
    Touch L s p = (s, []) ∧
      (Touch L s p).1.touch_evt.start_coordinates = s.touch_evt.start_coordinates ∧
      (Touch L s p).1.touch_evt.last_coordinates = s.touch_evt.last_coordinates ∧
      (Touch L s p).1.touch_evt.distance = s.touch_evt.distance ∧
      (Touch L s p).1.previous_touch = s.previous_touch ∧
      (Touch L s p).2 = [] := by
  have h : Touch L s p = (s, []) := by simp [Touch, ht, hc, h0]
  rw [h]
  exact ⟨rfl, rfl, rfl, rfl, rfl, rfl⟩

theorem C7_witness :
    (Touch demoLayout demoState release).1.touch_evt = demoState.touch_evt ∧
      (Touch demoLayout demoState release).2 = [] :=
  ⟨congrArg (fun r => r.1.touch_evt) (C7_idle_is_noop demoLayout demoState release rfl rfl rfl).1,
    (C7_idle_is_noop demoLayout demoState release rfl rfl rfl).2.2.2.2.2⟩

/-- C8: polled in Touch-Held (sampled contacts and latch both non-zero) with the
gesture timer expired, `Touch` sets the latch to 0, leaves `start_coordinates`,
`last_coordinates` and `distance` as they were, and its only call is the timer
check: neither `Button_Handler` nor `Gesture_Handler` is called. -/
theorem C8_expiry_keeps_coordinates (L : Layout) (s : State) (p : Poll) (ht : p.touched = true)
    (hc : toUInt8 p.getTouches ≠ 0) (he : p.timer_expired = true)
    (h0 : s.previous_touch ≠ 0) :
    (Touch L s p).1.previous_touch = 0 ∧
      (Touch L s p).1.touch_evt.start_coordinates = s.touch_evt.start_coordinates ∧
      (Touch L s p).1.touch_evt.last_coordinates = s.touch_evt.last_coordinates ∧
      (Touch L s p).1.touch_evt.distance = s.touch_evt.distance ∧
      (Touch L s p).2 = [Call.gesture_timer_check] ∧
      (Touch L s p).2.filter Call.isHandler = [] := by
  have h : Touch L s p = ({ s with previous_touch := 0 }, [Call.gesture_timer_check]) := by
    simp [Touch, ht, hc, he, h0]
  rw [h]
  exact ⟨rfl, rfl, rfl, rfl, rfl, rfl⟩

theorem C8_witness :
    (Touch demoLayout (run demoLayout demoState [sample 1 ⟨100, 100, 0, 0⟩ false]).1
        (sample 1 ⟨150, 100, 0, 0⟩ true)).1.previous_touch = 0 ∧
      (Touch demoLayout (run demoLayout demoState [sample 1 ⟨100, 100, 0, 0⟩ false]).1
        (sample 1 ⟨150, 100, 0, 0⟩ true)).1.touch_evt.start_coordinates = ⟨100, 100, 0, 0⟩ :=
  ⟨(C8_expiry_keeps_coordinates demoLayout
      (run demoLayout demoState [sample 1 ⟨100, 100, 0, 0⟩ false]).1
      (sample 1 ⟨150, 100, 0, 0⟩ true) rfl (by decide) rfl (by decide)).1,
    (C8_expiry_keeps_coordinates demoLayout
      (run demoLayout demoState [sample 1 ⟨100, 100, 0, 0⟩ false]).1
      (sample 1 ⟨150, 100, 0, 0⟩ true) rfl (by decide) rfl (by decide)).2.1.trans (by decide)⟩

/-- One invocation of `Touch` writes `distance` only in STATE 4, where it ends
as all zeros. -/
theorem Touch_distance (L : Layout) (s : State) (p : Poll) :
    (p.isLift ∧ s.previous_touch ≠ 0 → (Touch L s p).1.touch_evt.distance = ⟨0, 0, 0, 0⟩) ∧
      (¬(p.isLift ∧ s.previous_touch ≠ 0) →
        (Touch L s p).1.touch_evt.distance = s.touch_evt.distance) := by
  constructor
  · rintro ⟨hl, h0⟩
    rw [Touch_lift L s p hl h0, (touchLift_tracker L s p).1]
  · intro hn
    by_cases ht : p.touched = true
    · by_cases hc : toUInt8 p.getTouches = 0
      · have h0 : s.previous_touch = 0 := by
          by_contra h0
          exact hn ⟨⟨ht, hc⟩, h0⟩
        rw [Touch_idle L s p ⟨ht, hc⟩ h0]
      · by_cases h0 : s.previous_touch = 0
        · rw [Touch_down L s p ⟨ht, hc⟩ h0]
        · by_cases he : p.timer_expired = true
          · rw [Touch_expired L s p ⟨ht, hc, he⟩ h0]
          · rw [Touch_held L s p ⟨ht, hc, by simpa using he⟩ h0]
    · rw [Touch_untouched L s p (by simpa using ht)]

/-- Zero distances stay zero over any sequence of invocations. -/
theorem run_distance_zero (L : Layout) (polls : List Poll) (s : State)
    (h : s.touch_evt.distance = ⟨0, 0, 0, 0⟩) :
    (run L s polls).1.touch_evt.distance = ⟨0, 0, 0, 0⟩ := by
  induction polls generalizing s with
  | nil => simpa [run] using h
  | cons p ps ih =>
    simp only [run]
    apply ih
    by_cases hl : p.isLift ∧ s.previous_touch ≠ 0
    · exact (Touch_distance L s p).1 hl
    · rw [(Touch_distance L s p).2 hl]; exact h

/-- C9: from the zero-initialised tracker with latch 0, after every sequence of
invocations of `Touch` (any samples, any timer outcomes) the four entries of
`distance` are zero; and an invocation other than a Touch-Lift does not assign
`distance` at all, so non-zero entries exist only inside STATE 4, which stores
them before the dispatch and zeroes them after it. -/
theorem C9_distance_reads_zero (L : Layout) (radio : State) (polls : List Poll) :
    (run L (State.init radio) polls).1.touch_evt.distance = ⟨0, 0, 0, 0⟩ ∧
      (∀ (s : State) (p : Poll), ¬(p.isLift ∧ s.previous_touch ≠ 0) →
        (Touch L s p).1.touch_evt.distance = s.touch_evt.distance) ∧
      (∀ (s : State) (p : Poll), p.isLift ∧ s.previous_touch ≠ 0 →
        (Touch L s p).1.touch_evt.distance = ⟨0, 0, 0, 0⟩ ∧
          (Touch L s p).2 = (liftDispatch L (liftState s p)).2 ∧
          (liftState s p).touch_evt.distance =
            liftDistance s.previous_touch s.touch_evt.start_coordinates
              (p.getTScoordinates s.touch_evt.last_coordinates)) := by
  refine ⟨run_distance_zero L polls _ rfl, fun s p h => (Touch_distance L s p).2 h, ?_⟩
  intro s p h
  refine ⟨(Touch_distance L s p).1 h, ?_, rfl⟩
  rw [Touch_lift L s p h.1 h.2]
  rfl

theorem C9_witness :
    (run demoLayout (State.init demoState)
        [sample 1 ⟨100, 400, 0, 0⟩ false, sample 1 ⟨100, 350, 0, 0⟩ false,
          sample 0 ⟨100, 300, 0, 0⟩ false]).1.touch_evt.distance = ⟨0, 0, 0, 0⟩ :=
  (C9_distance_reads_zero demoLayout demoState
    [sample 1 ⟨100, 400, 0, 0⟩ false, sample 1 ⟨100, 350, 0, 0⟩ false,
      sample 0 ⟨100, 300, 0, 0⟩ false]).1

/-- The button test of STATE 4 on the state that holds the stored distances. -/
theorem liftState_test (s : State) (p : Poll) :
    ((liftState s p).previous_touch = 1 ∧
      ((liftState s p).touch_evt.distance.x0.natAbs < BUTTON_TOUCH ∧
        (liftState s p).touch_evt.distance.y0.natAbs < BUTTON_TOUCH)) ↔
    (s.previous_touch = 1 ∧
      ((toInt16 (((p.getTScoordinates s.touch_evt.last_coordinates).x0 : Int) -
          s.touch_evt.start_coordinates.x0)).natAbs < BUTTON_TOUCH ∧
        (toInt16 (((p.getTScoordinates s.touch_evt.last_coordinates).y0 : Int) -
          s.touch_evt.start_coordinates.y0)).natAbs < BUTTON_TOUCH)) :=
  Iff.rfl

/-- STATE 4 makes exactly one handler call: `Button_Handler` at the start
coordinates when the latch is 1 and the button test holds, `Gesture_Handler`
with the latch as its code otherwise. -/
theorem touchLift_handlers (L : Layout) (s : State) (p : Poll) :
    (s.previous_touch = 1 ∧
      (touchLift L s p).2.filter Call.isHandler =
        [Call.Button_Handler s.touch_evt.start_coordinates.x0
          s.touch_evt.start_coordinates.y0]) ∨
      (touchLift L s p).2.filter Call.isHandler = [Call.Gesture_Handler s.previous_touch] := by
  by_cases hc : (liftState s p).previous_touch = 1 ∧
      ((liftState s p).touch_evt.distance.x0.natAbs < BUTTON_TOUCH ∧
        (liftState s p).touch_evt.distance.y0.natAbs < BUTTON_TOUCH)
  · left
    refine ⟨hc.1, ?_⟩
    simp only [touchLift, liftDispatch_button L _ hc]
    simp [Call.isHandler, Button_Handler_calls, liftState]
  · right
    exact touchLift_gesture L s p ((liftState_test s p).not.1 hc)

/-- After a Touch-Down and Touch-Held polls with unexpired timer the latch is the
count sampled on the Touch-Down poll and `start_coordinates` is what the driver
wrote on that poll. -/
theorem run_down_held (L : Layout) (s : State) (down : Poll) (held : List Poll)
    (h0 : s.previous_touch = 0) (hd : down.isDown) (hh : ∀ p ∈ held, p.isHeld) :
    (run L s (down :: held)).1.previous_touch = toUInt8 down.getTouches ∧
      (run L s (down :: held)).1.touch_evt.start_coordinates =
        down.getTScoordinates s.touch_evt.start_coordinates ∧
      (run L s (down :: held)).2.filter Call.isHandler = [] := by
  have hdown := Touch_down L s down hd h0
  have hprev : (Touch L s down).1.previous_touch = toUInt8 down.getTouches := by rw [hdown]
  have hstart : (Touch L s down).1.touch_evt.start_coordinates =
      down.getTScoordinates s.touch_evt.start_coordinates := by rw [hdown]
  obtain ⟨hp, hst, -, hcalls, -⟩ :=
    run_held L held hh (Touch L s down).1 (by rw [hprev]; exact hd.2)
  simp only [run]
  refine ⟨by rw [hp, hprev], by rw [hst, hstart], ?_⟩
  rw [List.filter_append, hcalls, hdown]
  simp [Call.isHandler]

/-- C11: over a gesture (Touch-Down, Touch-Held polls with unexpired timer,
Touch-Lift) the latch at the lift is the contact count sampled on the
Touch-Down poll, whatever counts the held polls sample; the lift makes one
handler call, which is `Gesture_Handler` with that count as its code, or, only
when that count is 1, `Button_Handler` at the start coordinates. -/
theorem C11_dispatch_uses_down_count (L : Layout) (s : State) (down lift : Poll)
    (held : List Poll) (h0 : s.previous_touch = 0) (hd : down.isDown)
    (hh : ∀ p ∈ held, p.isHeld) (hl : lift.isLift) :
    (run L s (down :: held)).1.previous_touch = toUInt8 down.getTouches ∧
      ((Touch L (run L s (down :: held)).1 lift).2.filter Call.isHandler =
          [Call.Gesture_Handler (toUInt8 down.getTouches)] ∨
        (toUInt8 down.getTouches = 1 ∧
          (Touch L (run L s (down :: held)).1 lift).2.filter Call.isHandler =
            [Call.Button_Handler (down.getTScoordinates s.touch_evt.start_coordinates).x0
              (down.getTScoordinates s.touch_evt.start_coordinates).y0])) := by
  obtain ⟨hp, hst, -⟩ := run_down_held L s down held h0 hd hh
  refine ⟨hp, ?_⟩
  rw [Touch_lift L _ lift hl (by rw [hp]; exact hd.2)]
  rcases touchLift_handlers L (run L s (down :: held)).1 lift with h | h
  · right
    rw [hp, hst] at h
    exact h
  · left
    rw [hp] at h
    exact h

theorem C11_witness :
    ((Touch demoLayout
          (run demoLayout demoState
            [sample 1 ⟨100, 100, 0, 0⟩ false, sample 2 ⟨101, 100, 300, 300⟩ false]).1
          (sample 0 ⟨101, 100, 300, 300⟩ false)).2.filter Call.isHandler =
        [Call.Gesture_Handler 1] ∨
      ((1 : Nat) = 1 ∧
        (Touch demoLayout
          (run demoLayout demoState
            [sample 1 ⟨100, 100, 0, 0⟩ false, sample 2 ⟨101, 100, 300, 300⟩ false]).1
          (sample 0 ⟨101, 100, 300, 300⟩ false)).2.filter Call.isHandler =
          [Call.Button_Handler 100 100])) ∧
    ((Touch demoLayout
          (run demoLayout demoState
            [sample 2 ⟨50, 50, 150, 150⟩ false, sample 1 ⟨60, 60, 150, 150⟩ false]).1
          (sample 0 ⟨60, 60, 150, 150⟩ false)).2.filter Call.isHandler =
        [Call.Gesture_Handler 2] ∨
      ((2 : Nat) = 1 ∧
        (Touch demoLayout
          (run demoLayout demoState
            [sample 2 ⟨50, 50, 150, 150⟩ false, sample 1 ⟨60, 60, 150, 150⟩ false]).1
          (sample 0 ⟨60, 60, 150, 150⟩ false)).2.filter Call.isHandler =
          [Call.Button_Handler 50 50])) :=
  ⟨(C11_dispatch_uses_down_count demoLayout demoState (sample 1 ⟨100, 100, 0, 0⟩ false)
      (sample 0 ⟨101, 100, 300, 300⟩ false) [sample 2 ⟨101, 100, 300, 300⟩ false]
      rfl (by decide) (by decide) (by decide)).2,
    (C11_dispatch_uses_down_count demoLayout demoState (sample 2 ⟨50, 50, 150, 150⟩ false)
      (sample 0 ⟨60, 60, 150, 150⟩ false) [sample 1 ⟨60, 60, 150, 150⟩ false]
      rfl (by decide) (by decide) (by decide)).2⟩

/-- C12: for every gesture code other than 1 and 2 (0 included)
`Gesture_Handler` returns the state as it was and makes no call: neither
`Set_Spectrum_RefLvl` nor `Set_Spectrum_Scale` nor anything else. -/
theorem C12_other_codes_do_nothing (g : Nat) (s : State) (h1 : g ≠ 1) (h2 : g ≠ 2) :
    Gesture_Handler g s = (s, []) ∧ (Gesture_Handler g s).1.touch_evt = s.touch_evt ∧
      (Gesture_Handler g s).2 = [] := by
  have h : Gesture_Handler g s = (s, []) := by
    simp only [Gesture_Handler, if_neg h1, if_neg h2]
  rw [h]
  exact ⟨rfl, rfl, rfl⟩

theorem C12_witness :
    (Gesture_Handler 0 demoState).2 = [] ∧ (Gesture_Handler 3 demoState).2 = [] ∧
      (Gesture_Handler 255 demoState).2 = [] :=
  ⟨(C12_other_codes_do_nothing 0 demoState (by decide) (by decide)).2.2,
    (C12_other_codes_do_nothing 3 demoState (by decide) (by decide)).2.2,
    (C12_other_codes_do_nothing 255 demoState (by decide) (by decide)).2.2⟩

/-- The hit test of the code is containment in the open rectangle. -/
theorem inZone_iff (L : Layout) (left right n : Int) (x : Int) (y : Nat) :
    inZone L left right n x y = true ↔ Zone.contains L ⟨left, right, n⟩ x y := by
  simp [inZone, Zone.contains]

/-- No integer multiple of the slot height lies strictly between two
consecutive ones. -/
theorem slot_boundary (B k n : Int) : ¬ (B * (n - 1) < B * k ∧ B * k < B * n) := by
  rintro ⟨h1, h2⟩
  rcases lt_trichotomy B 0 with hB | hB | hB
  · have a := (mul_lt_mul_left_of_neg hB).1 h1
    have b := (mul_lt_mul_left_of_neg hB).1 h2
    omega
  · subst hB; simp at h1
  · have a := (mul_lt_mul_left hB).1 h1
    have b := (mul_lt_mul_left hB).1 h2
    omega

theorem firstMatch_none (L : Layout) (x : Int) (y : Nat) (s : State)
    (table : List (Zone × (State → State × List Call)))
    (h : ∀ q ∈ table, ¬ q.1.contains L x y) :
    firstMatch L x y s table = ({ s with B_num := 6 }, []) := by
  induction table with
  | nil => rfl
  | cons q rest ih =>
    obtain ⟨z, act⟩ := q
    have hz : ¬ z.contains L x y := h (z, act) (List.mem_cons_self _ _)
    simp only [firstMatch, if_neg hz]
    exact ih (fun q hq => h q (List.mem_cons_of_mem _ hq))

theorem firstMatch_first (L : Layout) (x : Int) (y : Nat) (s : State)
    (pre post : List (Zone × (State → State × List Call))) (z : Zone)
    (act : State → State × List Call)
    (hpre : ∀ q ∈ pre, ¬ q.1.contains L x y) (hz : z.contains L x y) :
    firstMatch L x y s (pre ++ (z, act) :: post) = act { s with B_num := z.slot } := by
  induction pre with
  | nil => simp only [List.nil_append, firstMatch, if_pos hz]
  | cons q rest ih =>
    obtain ⟨z', act'⟩ := q
    have hz' : ¬ z'.contains L x y := hpre (z', act') (List.mem_cons_self _ _)
    simp only [List.cons_append, firstMatch, if_neg hz']
    exact ih (fun q hq => hpre q (List.mem_cons_of_mem _ hq))

/-- The chain of hit tests of `Button_Handler` is the first-match rule over the
zone table. -/
theorem Button_Handler_firstMatch (L : Layout) (x : Int) (y : Nat) (s : State) :
    Button_Handler L x y s = firstMatch L x y s (zoneTable L) := by
  simp only [Button_Handler, zoneTable, firstMatch, inZone_iff]

/-- C13: `Button_Handler(x,y)` performs the action of the first zone, in the
order left-stack slots 1..6 then right-stack slots 1..6, whose open rectangle
contains the point, and of no other zone, for every layout (overlapping
rectangles included): whenever the zone table splits as `pre`, a zone `z` with
action `act`, `post`, no zone of `pre` contains the point and `z` does, the
result is that of `act` alone (run with `B_num` at the slot of `z`). -/
theorem C13_first_zone_wins (L : Layout) (x : Int) (y : Nat) (s : State)
    (pre post : List (Zone × (State → State × List Call))) (z : Zone)
    (act : State → State × List Call)
    (htable : zoneTable L = pre ++ (z, act) :: post)
    (hpre : ∀ q ∈ pre, ¬ q.1.contains L x y) (hz : z.contains L x y) :
    Button_Handler L x y s = act { s with B_num := z.slot } ∧
      Button_Handler L x y s = firstMatch L x y s (zoneTable L) := by
  refine ⟨?_, Button_Handler_firstMatch L x y s⟩
  rw [Button_Handler_firstMatch, htable]
  exact firstMatch_first L x y s pre post z act hpre hz

theorem C13_witness :
    Button_Handler ⟨0, 100, 0, 100, 60, 70, fun _ => 0⟩ 50 100 demoState =
        leftSlot1 { demoState with B_num := 1 } ∧
      (Button_Handler ⟨0, 100, 0, 100, 60, 70, fun _ => 0⟩ 50 100 demoState).2 =
        [Call.selectMode] :=
  ⟨(C13_first_zone_wins ⟨0, 100, 0, 100, 60, 70, fun _ => 0⟩ 50 100 demoState []
      (List.tail (zoneTable ⟨0, 100, 0, 100, 60, 70, fun _ => 0⟩)) ⟨0, 100, 1⟩ leftSlot1 rfl
      (by simp) (by decide)).1,
    by decide⟩

/-- C14: for a point inside none of the twelve zones `Button_Handler` makes no
call and leaves `bndx`, `fndx`, `mndx`, `Freq`, `spectrum_preset` and the
spectrum parameter table (and the touch tracker) as they were; and a point
whose `y` is exactly on a slot boundary `Top_frame + B_height*k` is inside none
of the twelve zones, whatever the layout. -/
theorem C14_no_match_is_noop (L : Layout) (x : Int) (y : Nat) (s : State)
    (hnone : ∀ q ∈ zoneTable L, ¬ q.1.contains L x y) :
    (Button_Handler L x y s = ({ s with B_num := 6 }, []) ∧
      (Button_Handler L x y s).2 = [] ∧
      (Button_Handler L x y s).1.bndx = s.bndx ∧
      (Button_Handler L x y s).1.fndx = s.fndx ∧
      (Button_Handler L x y s).1.mndx = s.mndx ∧
      (Button_Handler L x y s).1.Freq = s.Freq ∧
      (Button_Handler L x y s).1.spectrum_preset = s.spectrum_preset ∧
      (Button_Handler L x y s).1.Sp_Parms_Def = s.Sp_Parms_Def ∧
      (Button_Handler L x y s).1.touch_evt = s.touch_evt) ∧
    (∀ (k x1 : Int) (y1 : Nat), (y1 : Int) = L.Top_frame + L.B_height * k →
      ∀ q ∈ zoneTable L, ¬ q.1.contains L x1 y1) := by
  constructor
  · have h : Button_Handler L x y s = ({ s with B_num := 6 }, []) := by
      rw [Button_Handler_firstMatch]
      exact firstMatch_none L x y s _ hnone
    rw [h]
    exact ⟨rfl, rfl, rfl, rfl, rfl, rfl, rfl, rfl, rfl⟩
  · intro k x1 y1 hy q hq
    rintro ⟨-, h1, h2⟩
    rw [hy] at h1 h2
    have b1 := (add_lt_add_iff_left _).1 h1
    have b2 := (add_lt_add_iff_left _).1 h2
    exact slot_boundary _ _ _ ⟨b1, b2⟩

theorem C14_witness :
    (Button_Handler demoLayout 400 200 demoState).2 = [] ∧
      (Button_Handler demoLayout 50 130 demoState).2 = [] :=
  ⟨(C14_no_match_is_noop demoLayout 400 200 demoState (by decide)).1.2.1,
    (C14_no_match_is_noop demoLayout 50 130 demoState
      ((C14_no_match_is_noop demoLayout 400 200 demoState (by decide)).2 1 50 130
        (by decide))).1.2.1⟩

/-- C15: polled with a touch event, sampled contact count `C > 0` and latch 0,
`Touch` sets the latch to `C`, hands `start_coordinates` and `last_coordinates`
to the driver, so that both hold the coordinates the driver reports on that
poll in every active slot, resets the gesture timer and makes no other call
(no handler); `distance` is not assigned. -/
theorem C15_touch_down (L : Layout) (s : State) (p : Poll) (c : Coordinates)
    (ht : p.touched = true) (hc : toUInt8 p.getTouches ≠ 0) (h0 : s.previous_touch = 0)
    (hrep : p.reports c) :
    (Touch L s p).1.previous_touch = toUInt8 p.getTouches ∧
      (Touch L s p).1.touch_evt.start_coordinates =
        p.getTScoordinates s.touch_evt.start_coordinates ∧
      (Touch L s p).1.touch_evt.last_coordinates =
        p.getTScoordinates s.touch_evt.last_coordinates ∧
      (1 ≤ toUInt8 p.getTouches →
        ((Touch L s p).1.touch_evt.start_coordinates.x0 = c.x0 ∧
          (Touch L s p).1.touch_evt.start_coordinates.y0 = c.y0) ∧
        ((Touch L s p).1.touch_evt.last_coordinates.x0 = c.x0 ∧
          (Touch L s p).1.touch_evt.last_coordinates.y0 = c.y0)) ∧
      (2 ≤ toUInt8 p.getTouches →
        ((Touch L s p).1.touch_evt.start_coordinates.x1 = c.x1 ∧
          (Touch L s p).1.touch_evt.start_coordinates.y1 = c.y1) ∧
        ((Touch L s p).1.touch_evt.last_coordinates.x1 = c.x1 ∧
          (Touch L s p).1.touch_evt.last_coordinates.y1 = c.y1)) ∧
      (Touch L s p).1.touch_evt.distance = s.touch_evt.distance ∧
      (Touch L s p).2 = [Call.gesture_timer_reset] ∧
      (Touch L s p).2.filter Call.isHandler = [] := by
  rw [Touch_down L s p ⟨ht, hc⟩ h0]
  refine ⟨rfl, rfl, rfl, ?_, ?_, rfl, rfl, rfl⟩
  · intro h1
    exact ⟨(hrep s.touch_evt.start_coordinates).1 h1, (hrep s.touch_evt.last_coordinates).1 h1⟩
  · intro h2
    exact ⟨(hrep s.touch_evt.start_coordinates).2 h2, (hrep s.touch_evt.last_coordinates).2 h2⟩

theorem C15_witness :
    (Touch demoLayout demoState (sample 2 ⟨50, 50, 150, 150⟩ false)).1.previous_touch = 2 ∧
      (Touch demoLayout demoState
        (sample 2 ⟨50, 50, 150, 150⟩ false)).1.touch_evt.start_coordinates =
        ⟨50, 50, 150, 150⟩ ∧
      (Touch demoLayout demoState (sample 2 ⟨50, 50, 150, 150⟩ false)).2 =
        [Call.gesture_timer_reset] :=
  ⟨(C15_touch_down demoLayout demoState (sample 2 ⟨50, 50, 150, 150⟩ false)
      ⟨50, 50, 150, 150⟩ rfl (by decide) rfl (fun _ => ⟨fun _ => ⟨rfl, rfl⟩,
        fun _ => ⟨rfl, rfl⟩⟩)).1,
    (C15_touch_down demoLayout demoState (sample 2 ⟨50, 50, 150, 150⟩ false)
      ⟨50, 50, 150, 150⟩ rfl (by decide) rfl (fun _ => ⟨fun _ => ⟨rfl, rfl⟩,
        fun _ => ⟨rfl, rfl⟩⟩)).2.1,
    (C15_touch_down demoLayout demoState (sample 2 ⟨50, 50, 150, 150⟩ false)
      ⟨50, 50, 150, 150⟩ rfl (by decide) rfl (fun _ => ⟨fun _ => ⟨rfl, rfl⟩,
        fun _ => ⟨rfl, rfl⟩⟩)).2.2.2.2.2.2.1⟩

/-- C16: polled in Touch-Held (sampled contacts and latch both non-zero) with the
gesture timer not expired, `Touch` hands `last_coordinates` to the driver, so
that it holds the coordinates reported on that poll in every active slot, and
leaves `start_coordinates`, the latch and `distance` as they were; its only
call is the timer check (no handler). -/
theorem C16_touch_held (L : Layout) (s : State) (p : Poll) (c : Coordinates)
    (ht : p.touched = true) (hc : toUInt8 p.getTouches ≠ 0) (he : p.timer_expired = false)
    (h0 : s.previous_touch ≠ 0) (hrep : p.reports c) :
    (Touch L s p).1.touch_evt.last_coordinates =
        p.getTScoordinates s.touch_evt.last_coordinates ∧
      (1 ≤ toUInt8 p.getTouches →
        (Touch L s p).1.touch_evt.last_coordinates.x0 = c.x0 ∧
          (Touch L s p).1.touch_evt.last_coordinates.y0 = c.y0) ∧
      (2 ≤ toUInt8 p.getTouches →
        (Touch L s p).1.touch_evt.last_coordinates.x1 = c.x1 ∧
          (Touch L s p).1.touch_evt.last_coordinates.y1 = c.y1) ∧
      (Touch L s p).1.touch_evt.start_coordinates = s.touch_evt.start_coordinates ∧
      (Touch L s p).1.previous_touch = s.previous_touch ∧
      (Touch L s p).1.touch_evt.distance = s.touch_evt.distance ∧
      (Touch L s p).2 = [Call.gesture_timer_check] ∧
      (Touch L s p).2.filter Call.isHandler = [] := by
  rw [Touch_held L s p ⟨ht, hc, he⟩ h0]
  exact ⟨rfl, (hrep s.touch_evt.last_coordinates).1, (hrep s.touch_evt.last_coordinates).2,
    rfl, rfl, rfl, rfl, rfl⟩

theorem C16_witness :
    (Touch demoLayout (run demoLayout demoState [sample 1 ⟨100, 100, 0, 0⟩ false]).1
        (sample 1 ⟨102, 101, 0, 0⟩ false)).1.touch_evt.last_coordinates = ⟨102, 101, 0, 0⟩ ∧
      (Touch demoLayout (run demoLayout demoState [sample 1 ⟨100, 100, 0, 0⟩ false]).1
        (sample 1 ⟨102, 101, 0, 0⟩ false)).1.touch_evt.start_coordinates =
        ⟨100, 100, 0, 0⟩ :=
  ⟨(C16_touch_held demoLayout (run demoLayout demoState [sample 1 ⟨100, 100, 0, 0⟩ false]).1
      (sample 1 ⟨102, 101, 0, 0⟩ false) ⟨102, 101, 0, 0⟩ rfl (by decide) rfl (by decide)
      (fun _ => ⟨fun _ => ⟨rfl, rfl⟩, fun _ => ⟨rfl, rfl⟩⟩)).1,
    (C16_touch_held demoLayout (run demoLayout demoState [sample 1 ⟨100, 100, 0, 0⟩ false]).1
      (sample 1 ⟨102, 101, 0, 0⟩ false) ⟨102, 101, 0, 0⟩ rfl (by decide) rfl (by decide)
      (fun _ => ⟨fun _ => ⟨rfl, rfl⟩, fun _ => ⟨rfl, rfl⟩⟩)).2.2.2.1.trans (by decide)⟩

/-- C17: polled with a touch event, zero sampled contacts and a non-zero latch,
`Touch` makes exactly one handler call, either `Button_Handler` (at the start
coordinates of contact 0) or `Gesture_Handler` (with the latch as its code),
and returns with the latch 0, `start_coordinates` as before the poll and all
distances zero. -/
theorem C17_touch_lift (L : Layout) (s : State) (p : Poll) (ht : p.touched = true)
    (hc : toUInt8 p.getTouches = 0) (h0 : s.previous_touch ≠ 0) :
    ((Touch L s p).2.filter Call.isHandler =
          [Call.Button_Handler s.touch_evt.start_coordinates.x0
            s.touch_evt.start_coordinates.y0] ∨
        (Touch L s p).2.filter Call.isHandler = [Call.Gesture_Handler s.previous_touch]) ∧
      ((Touch L s p).2.filter Call.isHandler).length = 1 ∧
      (Touch L s p).1.previous_touch = 0 ∧
      (Touch L s p).1.touch_evt.start_coordinates = s.touch_evt.start_coordinates ∧
      (Touch L s p).1.touch_evt.distance = ⟨0, 0, 0, 0⟩ := by
  rw [Touch_lift L s p ⟨ht, hc⟩ h0, (touchLift_tracker L s p).1, (touchLift_tracker L s p).2]
  rcases touchLift_handlers L s p with h | h
  · rw [h.2]
    exact ⟨Or.inl rfl, rfl, rfl, rfl, rfl⟩
  · rw [h]
    exact ⟨Or.inr rfl, rfl, rfl, rfl, rfl⟩

theorem C17_witness :
    ((Touch demoLayout (run demoLayout demoState [sample 1 ⟨100, 100, 0, 0⟩ false]).1
        (sample 0 ⟨105, 103, 0, 0⟩ false)).2.filter Call.isHandler).length = 1 ∧
      (Touch demoLayout (run demoLayout demoState [sample 1 ⟨100, 100, 0, 0⟩ false]).1
        (sample 0 ⟨105, 103, 0, 0⟩ false)).1.previous_touch = 0 :=
  ⟨(C17_touch_lift demoLayout (run demoLayout demoState [sample 1 ⟨100, 100, 0, 0⟩ false]).1
      (sample 0 ⟨105, 103, 0, 0⟩ false) rfl rfl (by decide)).2.1,
    (C17_touch_lift demoLayout (run demoLayout demoState [sample 1 ⟨100, 100, 0, 0⟩ false]).1
      (sample 0 ⟨105, 103, 0, 0⟩ false) rfl rfl (by decide)).2.2.1⟩

/-- A `Gesture_Handler` call of a call list is among its handler calls. -/
theorem mem_handlers {g : Nat} {t : List Call} (h : Call.Gesture_Handler g ∈ t) :
    Call.Gesture_Handler g ∈ t.filter Call.isHandler :=
  List.mem_filter.2 ⟨h, rfl⟩

/-- One invocation keeps the latch within `{0,1,2}` when the sample is, and
passes `Gesture_Handler` only the latch, which is then 1 or 2. -/
theorem Touch_latch (L : Layout) (s : State) (p : Poll) (hp : p.getTouches ≤ 2)
    (hs : s.previous_touch ≤ 2) :
    (Touch L s p).1.previous_touch ≤ 2 ∧
      ∀ g, Call.Gesture_Handler g ∈ (Touch L s p).2 → g = 1 ∨ g = 2 := by
  have hu : toUInt8 p.getTouches ≤ 2 := by unfold toUInt8; omega
  by_cases ht : p.touched = true
  · by_cases hc : toUInt8 p.getTouches = 0
    · by_cases h0 : s.previous_touch = 0
      · rw [Touch_idle L s p ⟨ht, hc⟩ h0]
        exact ⟨hs, fun g hg => by simp at hg⟩
      · rw [Touch_lift L s p ⟨ht, hc⟩ h0]
        refine ⟨by rw [(touchLift_tracker L s p).2]; omega, fun g hg => ?_⟩
        have hm := mem_handlers hg
        rcases touchLift_handlers L s p with h | h
        · rw [h.2] at hm
          simp at hm
        · rw [h] at hm
          simp only [List.mem_singleton, Call.Gesture_Handler.injEq] at hm
          omega
    · by_cases h0 : s.previous_touch = 0
      · rw [Touch_down L s p ⟨ht, hc⟩ h0]
        exact ⟨hu, fun g hg => by simp at hg⟩
      · by_cases he : p.timer_expired = true
        · rw [Touch_expired L s p ⟨ht, hc, he⟩ h0]
          exact ⟨by simp, fun g hg => by simp at hg⟩
        · rw [Touch_held L s p ⟨ht, hc, by simpa using he⟩ h0]
          exact ⟨hs, fun g hg => by simp at hg⟩
  · rw [Touch_untouched L s p (by simpa using ht)]
    exact ⟨hs, fun g hg => by simp at hg⟩

theorem run_latch (L : Layout) (polls : List Poll) (hp : ∀ p ∈ polls, p.getTouches ≤ 2)
    (s : State) (hs : s.previous_touch ≤ 2) :
    (run L s polls).1.previous_touch ≤ 2 ∧
      ∀ g, Call.Gesture_Handler g ∈ (run L s polls).2 → g = 1 ∨ g = 2 := by
  induction polls generalizing s with
  | nil => exact ⟨hs, fun g hg => by simp [run] at hg⟩
  | cons p ps ih =>
    have h1 := Touch_latch L s p (hp p (List.mem_cons_self _ _)) hs
    have h2 := ih (fun q hq => hp q (List.mem_cons_of_mem _ hq)) (Touch L s p).1 h1.1
    simp only [run]
    refine ⟨h2.1, fun g hg => ?_⟩
    rcases List.mem_append.1 hg with h | h
    · exact h1.2 g h
    · exact h2.2 g h

/-- C18: if every poll samples a contact count in `{0,1,2}`, then from the
zero-initialised tracker with latch 0, after every sequence of invocations the
latch is in `{0,1,2}` and every `Gesture_Handler` call `Touch` has made carries
code 1 or 2, so the branch of `Gesture_Handler` for other codes is never
entered from `Touch`. -/
theorem C18_gesture_code_in_range (L : Layout) (radio : State) (polls : List Poll)
    (hp : ∀ p ∈ polls, p.getTouches ≤ 2) :
    ((run L (State.init radio) polls).1.previous_touch = 0 ∨
        (run L (State.init radio) polls).1.previous_touch = 1 ∨
        (run L (State.init radio) polls).1.previous_touch = 2) ∧
      ∀ g, Call.Gesture_Handler g ∈ (run L (State.init radio) polls).2 → g = 1 ∨ g = 2 := by
  have h := run_latch L polls hp (State.init radio) (Nat.zero_le 2)
  refine ⟨?_, h.2⟩
  have := h.1
  omega

theorem C18_witness :
    (run demoLayout (State.init demoState)
        [sample 2 ⟨50, 50, 150, 150⟩ false, sample 1 ⟨60, 60, 150, 150⟩ false,
          sample 0 ⟨60, 60, 150, 150⟩ false]).1.previous_touch = 0 ∨
      (run demoLayout (State.init demoState)
        [sample 2 ⟨50, 50, 150, 150⟩ false, sample 1 ⟨60, 60, 150, 150⟩ false,
          sample 0 ⟨60, 60, 150, 150⟩ false]).1.previous_touch = 1 ∨
      (run demoLayout (State.init demoState)
        [sample 2 ⟨50, 50, 150, 150⟩ false, sample 1 ⟨60, 60, 150, 150⟩ false,
          sample 0 ⟨60, 60, 150, 150⟩ false]).1.previous_touch = 2 :=
  (C18_gesture_code_in_range demoLayout demoState
    [sample 2 ⟨50, 50, 150, 150⟩ false, sample 1 ⟨60, 60, 150, 150⟩ false,
      sample 0 ⟨60, 60, 150, 150⟩ false] (by decide)).1

/-- Polls without a touch event change nothing and call nothing. -/
theorem run_untouched (L : Layout) (idle : List Poll) (h : ∀ p ∈ idle, p.touched = false)
    (s : State) : run L s idle = (s, []) := by
  induction idle generalizing s with
  | nil => rfl
  | cons p ps ih =>
    simp only [run, Touch_untouched L s p (h p (List.mem_cons_self _ _)),
      ih (fun q hq => h q (List.mem_cons_of_mem _ hq)), List.append_nil]

/-- C19: after a Touch-Held poll that sees the timer expired, the next poll with
a touch event that samples `C > 0` contacts (polls without a touch event may
lie in between) is handled as a Touch-Down: `start_coordinates` and
`last_coordinates` are handed to the driver again, the latch becomes `C` and
the timer is reset; after further Touch-Held polls with unexpired timer the
lift stores the distance from those new start coordinates and its one handler
call is `Gesture_Handler(C)` or, when `C` is 1, `Button_Handler` at the new
start coordinates. -/
theorem C19_restart_after_expiry (L : Layout) (s : State) (e d lift : Poll)
    (idle held : List Poll) (h0 : s.previous_touch ≠ 0) (he : e.isExpired)
    (hidle : ∀ p ∈ idle, p.touched = false) (hd : d.isDown) (hh : ∀ p ∈ held, p.isHeld)
    (hl : lift.isLift) :
    Touch L (run L s (e :: idle)).1 d =
        ({ s with
            previous_touch := toUInt8 d.getTouches
            touch_evt :=
              { s.touch_evt with
                start_coordinates := d.getTScoordinates s.touch_evt.start_coordinates
                last_coordinates := d.getTScoordinates s.touch_evt.last_coordinates } },
          [Call.gesture_timer_reset]) ∧
      (run L s (e :: idle ++ d :: held)).1.touch_evt.start_coordinates =
        d.getTScoordinates s.touch_evt.start_coordinates ∧
      (liftState (run L s (e :: idle ++ d :: held)).1 lift).touch_evt.distance =
        liftDistance (toUInt8 d.getTouches)
          (d.getTScoordinates s.touch_evt.start_coordinates)
          (lift.getTScoordinates
            (run L s (e :: idle ++ d :: held)).1.touch_evt.last_coordinates) ∧
      ((Touch L (run L s (e :: idle ++ d :: held)).1 lift).2.filter Call.isHandler =
          [Call.Gesture_Handler (toUInt8 d.getTouches)] ∨
        (toUInt8 d.getTouches = 1 ∧
          (Touch L (run L s (e :: idle ++ d :: held)).1 lift).2.filter Call.isHandler =
            [Call.Button_Handler (d.getTScoordinates s.touch_evt.start_coordinates).x0
              (d.getTScoordinates s.touch_evt.start_coordinates).y0])) := by
  have h1 : (run L s (e :: idle)).1 = { s with previous_touch := 0 } := by
    simp only [run, Touch_expired L s e he h0, run_untouched L idle hidle]
  have hz : ({ s with previous_touch := 0 } : State).previous_touch = 0 := rfl
  have happ : e :: idle ++ d :: held = (e :: idle) ++ (d :: held) := by simp
  have hmid : (run L s (e :: idle ++ d :: held)).1 =
      (run L { s with previous_touch := 0 } (d :: held)).1 := by
    rw [happ, run_append, h1]
  obtain ⟨hp, hst, -⟩ := run_down_held L { s with previous_touch := 0 } d held hz hd hh
  refine ⟨?_, ?_, ?_, ?_⟩
  · rw [h1, Touch_down L _ d hd hz]
  · rw [hmid, hst]
  · rw [hmid]
    simp only [liftState, hp, hst]
  · rw [hmid, Touch_lift L _ lift hl (by rw [hp]; exact hd.2)]
    rcases touchLift_handlers L (run L { s with previous_touch := 0 } (d :: held)).1 lift
      with h | h
    · right
      rw [hp, hst] at h
      exact h
    · left
      rw [hp] at h
      exact h

theorem C19_witness :
    (run demoLayout (run demoLayout demoState [sample 1 ⟨100, 100, 0, 0⟩ false]).1
        [sample 1 ⟨150, 100, 0, 0⟩ true,
          sample 1 ⟨200, 100, 0, 0⟩ false]).1.touch_evt.start_coordinates =
      ⟨200, 100, 0, 0⟩ :=
  (C19_restart_after_expiry demoLayout
    (run demoLayout demoState [sample 1 ⟨100, 100, 0, 0⟩ false]).1
    (sample 1 ⟨150, 100, 0, 0⟩ true) (sample 1 ⟨200, 100, 0, 0⟩ false)
    (sample 0 ⟨200, 100, 0, 0⟩ false) [] [] (by decide) (by decide) (by decide) (by decide)
    (by decide) (by decide)).2.1

/-- C20, the code at the failing input: two contacts pressed at `(50,50)` and
`(150,150)` and lifted without having moved. Every stored distance is 0, below
`BUTTON_TOUCH`, yet `Touch` calls `Gesture_Handler(2)`, which calls
`Set_Spectrum_Scale(1)`; the latch then returns to 0. -/
theorem C20_two_touch_always_dispatches :
    (liftState (run demoLayout demoState [sample 2 ⟨50, 50, 150, 150⟩ false]).1
        (sample 0 ⟨50, 50, 150, 150⟩ false)).touch_evt.distance = ⟨0, 0, 0, 0⟩ ∧
      (liftState (run demoLayout demoState [sample 2 ⟨50, 50, 150, 150⟩ false]).1
        (sample 0 ⟨50, 50, 150, 150⟩ false)).previous_touch = 2 ∧
      (Touch demoLayout (run demoLayout demoState [sample 2 ⟨50, 50, 150, 150⟩ false]).1
        (sample 0 ⟨50, 50, 150, 150⟩ false)).2 =
        [Call.Gesture_Handler 2, Call.Set_Spectrum_Scale 1] ∧
      (Touch demoLayout (run demoLayout demoState [sample 2 ⟨50, 50, 150, 150⟩ false]).1
        (sample 0 ⟨50, 50, 150, 150⟩ false)).1.previous_touch = 0 := by
  have hl : (sample 0 ⟨50, 50, 150, 150⟩ false).isLift := by decide
  have h2 : (run demoLayout demoState [sample 2 ⟨50, 50, 150, 150⟩ false]).1.previous_touch
      ≠ 0 := by decide
  have hc : ¬((liftState (run demoLayout demoState [sample 2 ⟨50, 50, 150, 150⟩ false]).1
      (sample 0 ⟨50, 50, 150, 150⟩ false)).previous_touch = 1 ∧
      ((liftState (run demoLayout demoState [sample 2 ⟨50, 50, 150, 150⟩ false]).1
        (sample 0 ⟨50, 50, 150, 150⟩ false)).touch_evt.distance.x0.natAbs < BUTTON_TOUCH ∧
      (liftState (run demoLayout demoState [sample 2 ⟨50, 50, 150, 150⟩ false]).1
        (sample 0 ⟨50, 50, 150, 150⟩ false)).touch_evt.distance.y0.natAbs < BUTTON_TOUCH)) := by
    decide
  have hp : (liftState (run demoLayout demoState [sample 2 ⟨50, 50, 150, 150⟩ false]).1
      (sample 0 ⟨50, 50, 150, 150⟩ false)).previous_touch = 2 := by decide
  have e1 : (liftState (run demoLayout demoState [sample 2 ⟨50, 50, 150, 150⟩ false]).1
      (sample 0 ⟨50, 50, 150, 150⟩ false)).touch_evt.start_coordinates =
      ⟨50, 50, 150, 150⟩ := by decide
  have e2 : (liftState (run demoLayout demoState [sample 2 ⟨50, 50, 150, 150⟩ false]).1
      (sample 0 ⟨50, 50, 150, 150⟩ false)).touch_evt.last_coordinates =
      ⟨50, 50, 150, 150⟩ := by decide
  refine ⟨by decide, hp, ?_, ?_⟩
  · rw [Touch_lift _ _ _ hl h2]
    simp only [touchLift, liftDispatch_gesture _ _ hc, hp, Gesture_Handler_two]
    rw [pinchPath_inPanel _ (by decide) (by decide)]
    simp only [e1, e2, lt_self_iff_false, if_false]
  · rw [Touch_lift _ _ _ hl h2]
    exact (touchLift_tracker _ _ _).2

/-- C21: polled while the touch controller reports no touch event, `Touch`
returns the state as it was (`start_coordinates`, `last_coordinates`,
`distance` and the latch in particular) and makes no call at all (no handler,
no timer reset or check), whatever the latch: a pending gesture is neither
dispatched nor reset, over any number of such polls. -/
theorem C21_no_touch_event_is_noop (L : Layout) (s : State) (p : Poll)
    (ht : p.touched = false) :
    Touch L s p = (s, []) ∧
      (Touch L s p).1.touch_evt.start_coordinates = s.touch_evt.start_coordinates ∧
      (Touch L s p).1.touch_evt.last_coordinates = s.touch_evt.last_coordinates ∧
      (Touch L s p).1.touch_evt.distance = s.touch_evt.distance ∧
      (Touch L s p).1.previous_touch = s.previous_touch ∧
      (Touch L s p).2 = [] ∧
      (∀ idle : List Poll, (∀ q ∈ idle, q.touched = false) → run L s idle = (s, [])) := by
  have h : Touch L s p = (s, []) := by simp [Touch, ht]
  rw [h]
  exact ⟨rfl, rfl, rfl, rfl, rfl, rfl, fun idle hidle => run_untouched L idle hidle s⟩

theorem C21_witness :
    (Touch demoLayout (run demoLayout demoState [sample 2 ⟨50, 50, 150, 150⟩ false]).1
        ⟨false, 0, id, true⟩).1.previous_touch = 2 ∧
      (Touch demoLayout (run demoLayout demoState [sample 2 ⟨50, 50, 150, 150⟩ false]).1
        ⟨false, 0, id, true⟩).2 = [] :=
  ⟨(C21_no_touch_event_is_noop demoLayout
      (run demoLayout demoState [sample 2 ⟨50, 50, 150, 150⟩ false]).1
      ⟨false, 0, id, true⟩ rfl).2.2.2.2.1.trans (by decide),
    (C21_no_touch_event_is_noop demoLayout
      (run demoLayout demoState [sample 2 ⟨50, 50, 150, 150⟩ false]).1
      ⟨false, 0, id, true⟩ rfl).2.2.2.2.2.1⟩

/-- C22: if `0 ≤ bndx ≤ 8` and `0 ≤ fndx ≤ 5` before `Button_Handler`, the same
bounds hold after it, for every point and layout, and every argument of a
`selectBandwidth` or `selectStep` call it makes lies within them: bandwidth up
and down saturate at 8 and 0, step up and down at 5 and 0, and band up and
down set `fndx` to 4. -/
theorem C22_index_ranges (L : Layout) (x : Int) (y : Nat) (s : State)
    (hb : 0 ≤ s.bndx ∧ s.bndx ≤ 8) (hf : 0 ≤ s.fndx ∧ s.fndx ≤ 5) :
    ((0 ≤ (Button_Handler L x y s).1.bndx ∧ (Button_Handler L x y s).1.bndx ≤ 8) ∧
      (0 ≤ (Button_Handler L x y s).1.fndx ∧ (Button_Handler L x y s).1.fndx ≤ 5) ∧
      (∀ b, Call.selectBandwidth b ∈ (Button_Handler L x y s).2 → 0 ≤ b ∧ b ≤ 8) ∧
      (∀ f, Call.selectStep f ∈ (Button_Handler L x y s).2 → 0 ≤ f ∧ f ≤ 5)) ∧
    ((leftSlot2 s).1.bndx = min (s.bndx + 1) 8 ∧ (leftSlot3 s).1.bndx = max (s.bndx - 1) 0 ∧
      (leftSlot4 s).1.fndx = min (s.fndx + 1) 5 ∧ (leftSlot5 s).1.fndx = max (s.fndx - 1) 0 ∧
      (rightSlot5 s).1.fndx = 4 ∧ (rightSlot6 s).1.fndx = 4) := by
  obtain ⟨hb0, hb8⟩ := hb
  obtain ⟨hf0, hf5⟩ := hf
  constructor
  · apply Button_Handler_cases
      (fun r => (0 ≤ r.1.bndx ∧ r.1.bndx ≤ 8) ∧ (0 ≤ r.1.fndx ∧ r.1.fndx ≤ 5) ∧
        (∀ b, Call.selectBandwidth b ∈ r.2 → 0 ≤ b ∧ b ≤ 8) ∧
        (∀ f, Call.selectStep f ∈ r.2 → 0 ≤ f ∧ f ≤ 5))
    · simp [leftSlot1, hb0, hb8, hf0, hf5]
    · simp only [leftSlot2]
      refine ⟨?_, ⟨hf0, hf5⟩, ?_, ?_⟩
      · split_ifs <;> omega
      · intro b hm
        simp only [List.mem_singleton, Call.selectBandwidth.injEq] at hm
        subst hm
        split_ifs <;> omega
      · intro f hm; simp at hm
    · simp only [leftSlot3]
      refine ⟨?_, ⟨hf0, hf5⟩, ?_, ?_⟩
      · split_ifs <;> omega
      · intro b hm
        simp only [List.mem_singleton, Call.selectBandwidth.injEq] at hm
        subst hm
        split_ifs <;> omega
      · intro f hm; simp at hm
    · simp only [leftSlot4]
      refine ⟨⟨hb0, hb8⟩, ?_, ?_, ?_⟩
      · split_ifs <;> omega
      · intro b hm; simp at hm
      · intro f hm
        simp only [List.mem_singleton, Call.selectStep.injEq] at hm
        subst hm
        split_ifs <;> omega
    · simp only [leftSlot5]
      refine ⟨⟨hb0, hb8⟩, ?_, ?_, ?_⟩
      · split_ifs <;> omega
      · intro b hm; simp at hm
      · intro f hm
        simp only [List.mem_singleton, Call.selectStep.injEq] at hm
        subst hm
        split_ifs <;> omega
    · simp [leftSlot6, hb0, hb8, hf0, hf5]
    · simp [rightSlot1, hb0, hb8, hf0, hf5]
    · simp [rightSlot2, hb0, hb8, hf0, hf5]
    · simp [rightSlot3, hb0, hb8, hf0, hf5]
    · simp [rightSlot4, hb0, hb8, hf0, hf5]
    · simp [rightSlot5, bandChange, hb0, hb8]
    · simp [rightSlot6, bandChange, hb0, hb8]
    · simp [hb0, hb8, hf0, hf5]
  · refine ⟨?_, ?_, ?_, ?_, rfl, rfl⟩
    · simp only [leftSlot2]
      split_ifs <;> omega
    · simp only [leftSlot3]
      split_ifs <;> omega
    · simp only [leftSlot4]
      split_ifs <;> omega
    · simp only [leftSlot5]
      split_ifs <;> omega

theorem C22_witness :
    (Button_Handler demoLayout 50 150 { demoState with bndx := 8 }).1.bndx ≤ 8 ∧
      (∀ b, Call.selectBandwidth b ∈
        (Button_Handler demoLayout 50 150 { demoState with bndx := 8 }).2 → 0 ≤ b ∧ b ≤ 8) :=
  ⟨(C22_index_ranges demoLayout 50 150 { demoState with bndx := 8 } (by decide)
      (by decide)).1.1.2,
    (C22_index_ranges demoLayout 50 150 { demoState with bndx := 8 } (by decide)
      (by decide)).1.2.2.1⟩

/-- C23: `Set_Spectrum_RefLvl` leaves `spect_floor` of the current preset at
`clamp(f - 10, -400, 400)` when `zoom_dir` is 1 and at `clamp(f + 10, -400, 400)`
otherwise, where `f` is its value before the call (integers without overflow),
so afterwards it lies in `[-400, 400]`; `spectrum_preset`, the other fields of
that entry and the other entries of the table are as before, and no call is
made. -/
theorem C23_reference_level_clamped (zoom_dir : Int) (s : State) :
    ((Set_Spectrum_RefLvl zoom_dir s).1.Sp_Parms_Def s.spectrum_preset).spect_floor =
        (if zoom_dir = 1 then clamp ((s.Sp_Parms_Def s.spectrum_preset).spect_floor - 10) (-400) 400
          else clamp ((s.Sp_Parms_Def s.spectrum_preset).spect_floor + 10) (-400) 400) ∧
      (-400 ≤ ((Set_Spectrum_RefLvl zoom_dir s).1.Sp_Parms_Def s.spectrum_preset).spect_floor ∧
        ((Set_Spectrum_RefLvl zoom_dir s).1.Sp_Parms_Def s.spectrum_preset).spect_floor ≤ 400) ∧
      (Set_Spectrum_RefLvl zoom_dir s).1.spectrum_preset = s.spectrum_preset ∧
      ((Set_Spectrum_RefLvl zoom_dir s).1.Sp_Parms_Def s.spectrum_preset).spect_wf_colortemp =
        (s.Sp_Parms_Def s.spectrum_preset).spect_wf_colortemp ∧
      (∀ i, i ≠ s.spectrum_preset →
        (Set_Spectrum_RefLvl zoom_dir s).1.Sp_Parms_Def i = s.Sp_Parms_Def i) ∧
      (Set_Spectrum_RefLvl zoom_dir s).2 = [] := by
  refine ⟨?_, ?_, rfl, ?_, fun i hi => ?_, rfl⟩
  · simp only [Set_Spectrum_RefLvl, Function.update_same, clamp]
    by_cases hz : zoom_dir = 1
    · simp only [if_pos hz]
      split_ifs <;> omega
    · simp only [if_neg hz]
      split_ifs <;> omega
  · simp only [Set_Spectrum_RefLvl, Function.update_same]
    split_ifs <;> omega
  · simp only [Set_Spectrum_RefLvl, Function.update_same]
  · simp only [Set_Spectrum_RefLvl]
    exact Function.update_noteq hi _ _

theorem C23_witness :
    ((Set_Spectrum_RefLvl 1 demoState).1.Sp_Parms_Def demoState.spectrum_preset).spect_floor
        = -10 ∧
      ((Set_Spectrum_RefLvl (-1) demoState).1.Sp_Parms_Def
        demoState.spectrum_preset).spect_floor = 10 :=
  ⟨(C23_reference_level_clamped 1 demoState).1.trans (by decide),
    (C23_reference_level_clamped (-1) demoState).1.trans (by decide)⟩

/-- C10 (as amended): when a Touch-Down records start coordinates `s`, a later
Touch-Held poll sees the timer expired and the same contact goes on being
reported, the expiry poll leaves `start_coordinates` at `s` with latch 0, the
first poll after it is handled as a new Touch-Down that hands
`start_coordinates` to the driver again, and after further Touch-Held polls
with unexpired timer the displacement stored at the Touch-Lift is measured
from those new start coordinates, not from the original press point `s`. -/
theorem C10_displacement_from_restart (L : Layout) (s : State) (down e d lift : Poll)
    (held1 held2 : List Poll) (h0 : s.previous_touch = 0) (hdown : down.isDown)
    (hh1 : ∀ p ∈ held1, p.isHeld) (he : e.isExpired) (hd : d.isDown)
    (hh2 : ∀ p ∈ held2, p.isHeld) (hl : lift.isLift) :
    (run L s (down :: held1 ++ [e])).1.touch_evt.start_coordinates =
        down.getTScoordinates s.touch_evt.start_coordinates ∧
      (run L s (down :: held1 ++ [e])).1.previous_touch = 0 ∧
      (run L s (down :: held1 ++ e :: d :: held2)).1.touch_evt.start_coordinates =
        d.getTScoordinates (down.getTScoordinates s.touch_evt.start_coordinates) ∧
      (run L s (down :: held1 ++ e :: d :: held2)).1.previous_touch = toUInt8 d.getTouches ∧
      (Touch L (run L s (down :: held1 ++ e :: d :: held2)).1 lift).2 =
        (liftDispatch L (liftState (run L s (down :: held1 ++ e :: d :: held2)).1 lift)).2 ∧
      (liftState (run L s (down :: held1 ++ e :: d :: held2)).1 lift).touch_evt.distance =
        liftDistance (toUInt8 d.getTouches)
          (d.getTScoordinates (down.getTScoordinates s.touch_evt.start_coordinates))
          (lift.getTScoordinates
            (run L s (down :: held1 ++ e :: d :: held2)).1.touch_evt.last_coordinates) ∧
      (liftState (run L s (down :: held1 ++ e :: d :: held2)).1 lift).touch_evt.distance.x0 =
        toInt16
          (((lift.getTScoordinates
              (run L s (down :: held1 ++ e :: d :: held2)).1.touch_evt.last_coordinates).x0 :
              Int) -
            (d.getTScoordinates (down.getTScoordinates s.touch_evt.start_coordinates)).x0) ∧
      (liftState (run L s (down :: held1 ++ e :: d :: held2)).1 lift).touch_evt.distance.y0 =
        toInt16
          (((lift.getTScoordinates
              (run L s (down :: held1 ++ e :: d :: held2)).1.touch_evt.last_coordinates).y0 :
              Int) -
            (d.getTScoordinates (down.getTScoordinates s.touch_evt.start_coordinates)).y0) := by
  obtain ⟨hp1, hst1, -⟩ := run_down_held L s down held1 h0 hdown hh1
  have hne : (run L s (down :: held1)).1.previous_touch ≠ 0 := by rw [hp1]; exact hdown.2
  have hexp := Touch_expired L (run L s (down :: held1)).1 e he hne
  have happ1 : down :: held1 ++ [e] = (down :: held1) ++ [e] := by simp
  have happ2 : down :: held1 ++ e :: d :: held2 = (down :: held1) ++ (e :: d :: held2) := by
    simp
  have hmid1 : (run L s (down :: held1 ++ [e])).1 =
      { (run L s (down :: held1)).1 with previous_touch := 0 } := by
    rw [happ1, run_append, run_single, hexp]
  have hmid2 : (run L s (down :: held1 ++ e :: d :: held2)).1 =
      (run L { (run L s (down :: held1)).1 with previous_touch := 0 } (d :: held2)).1 := by
    have hstep : ∀ t : State, t.previous_touch ≠ 0 →
        (run L t (e :: d :: held2)).1 =
          (run L { t with previous_touch := 0 } (d :: held2)).1 := by
      intro t ht
      simp only [run, Touch_expired L t e he ht]
    rw [happ2, run_append]
    exact hstep _ hne
  obtain ⟨hp2, hst2, -⟩ :=
    run_down_held L { (run L s (down :: held1)).1 with previous_touch := 0 } d held2 rfl hd hh2
  have hstart : (run L s (down :: held1 ++ e :: d :: held2)).1.touch_evt.start_coordinates =
      d.getTScoordinates (down.getTScoordinates s.touch_evt.start_coordinates) := by
    rw [hmid2, hst2]
    simp only [hst1]
  have hprev : (run L s (down :: held1 ++ e :: d :: held2)).1.previous_touch =
      toUInt8 d.getTouches := by
    rw [hmid2, hp2]
  refine ⟨?_, ?_, hstart, hprev, ?_, ?_, ?_, ?_⟩
  · rw [hmid1]; exact hst1
  · rw [hmid1]
  · rw [Touch_lift L _ lift hl (by rw [hprev]; exact hd.2)]
    rfl
  · simp only [liftState, hprev, hstart]
  · simp only [liftState, liftDistance, hstart]
  · simp only [liftState, liftDistance, hstart]

theorem C10_witness :
    (liftState
        (run demoLayout demoState
          [sample 1 ⟨100, 100, 0, 0⟩ false, sample 1 ⟨150, 100, 0, 0⟩ true,
            sample 1 ⟨200, 100, 0, 0⟩ false]).1
        (sample 0 ⟨230, 100, 0, 0⟩ false)).touch_evt.distance.x0 = 30 :=
  (C10_displacement_from_restart demoLayout demoState (sample 1 ⟨100, 100, 0, 0⟩ false)
    (sample 1 ⟨150, 100, 0, 0⟩ true) (sample 1 ⟨200, 100, 0, 0⟩ false)
    (sample 0 ⟨230, 100, 0, 0⟩ false) [] [] rfl (by decide) (by decide) (by decide)
    (by decide) (by decide) (by decide)).2.2.2.2.2.2.1.trans (by decide)

/-- C10 as stated fails: a contact pressed at `s = (100,100)`, held past the
timer at `(150,100)`, still reported at `(200,100)` and lifted at `(230,100)`,
with no poll sampling zero contacts before the lift. The expiry poll keeps
start `(100,100)` with latch 0, the next poll overwrites start with
`(200,100)`, and the displacement stored at the lift is `(30,0)`, not
`last - s = (130,0)`: the lift ends as `Button_Handler(200,100)` where a
130-pixel displacement would be a swipe. -/
theorem C10_counterexample :
    (run demoLayout demoState
        [sample 1 ⟨100, 100, 0, 0⟩ false]).1.touch_evt.start_coordinates = ⟨100, 100, 0, 0⟩ ∧
      (run demoLayout demoState
        [sample 1 ⟨100, 100, 0, 0⟩ false,
          sample 1 ⟨150, 100, 0, 0⟩ true]).1.touch_evt.start_coordinates = ⟨100, 100, 0, 0⟩ ∧
      (run demoLayout demoState
        [sample 1 ⟨100, 100, 0, 0⟩ false,
          sample 1 ⟨150, 100, 0, 0⟩ true]).1.previous_touch = 0 ∧
      (run demoLayout demoState
        [sample 1 ⟨100, 100, 0, 0⟩ false, sample 1 ⟨150, 100, 0, 0⟩ true,
          sample 1 ⟨200, 100, 0, 0⟩ false]).1.touch_evt.start_coordinates = ⟨200, 100, 0, 0⟩ ∧
      (liftState
        (run demoLayout demoState
          [sample 1 ⟨100, 100, 0, 0⟩ false, sample 1 ⟨150, 100, 0, 0⟩ true,
            sample 1 ⟨200, 100, 0, 0⟩ false]).1
        (sample 0 ⟨230, 100, 0, 0⟩ false)).touch_evt.distance = ⟨30, 0, 0, 0⟩ ∧
      (liftState
        (run demoLayout demoState
          [sample 1 ⟨100, 100, 0, 0⟩ false, sample 1 ⟨150, 100, 0, 0⟩ true,
            sample 1 ⟨200, 100, 0, 0⟩ false]).1
        (sample 0 ⟨230, 100, 0, 0⟩ false)).touch_evt.distance ≠
        liftDistance 1 ⟨100, 100, 0, 0⟩ ⟨230, 100, 0, 0⟩ ∧
      liftDistance 1 ⟨100, 100, 0, 0⟩ ⟨230, 100, 0, 0⟩ = ⟨130, 0, 0, 0⟩ ∧
      (run demoLayout demoState
        [sample 1 ⟨100, 100, 0, 0⟩ false, sample 1 ⟨150, 100, 0, 0⟩ true,
          sample 1 ⟨200, 100, 0, 0⟩ false, sample 0 ⟨230, 100, 0, 0⟩ false]).2 =
        [Call.gesture_timer_reset, Call.gesture_timer_check, Call.gesture_timer_reset,
          Call.Button_Handler 200 100] := by
  decide

end UserInput
